import Mathlib

/-!
# Smart-review backend: review store, synthesis operations and response mapping

A shallow embedding of `store/model.go`, `store/store.go` and the review
routes of `api/api.go`.

Modelling conventions.

* The relational database is a value of type `Store`: the rows of the
  `products` and `reviews` tables in insertion order, plus the two
  auto-increment counters. Of the `gorm.Model` columns only `ID` and `CreatedAt`
  are kept; `UpdatedAt` and `DeletedAt` are read by no code of the repository and
  nothing in it deletes a row.
* Everything the code does not control is an explicit input, the `Env`: the
  completion service (a function from the prompt to a text or a failure), the
  clock, and for every database access of the code an optional failure message.
  `gorm.ErrRecordNotFound` is never injected: it is produced by `First` exactly
  when no row matches.
* A Go `error` result and a Go `panic` are the constructors of `Outcome`; every
  run also reports the prompts it sent to the completion service, in order.
* The schema is the one `AutoMigrate(&Product{}, &Review{})` creates: `id` is the primary key
  of each table and `reviews.product_id` is a foreign key to `products.id`; a write to `reviews`
  that violates either is rejected.
* SQL leaves the order of a join and of ties under `ORDER BY` open; the model
  takes table order and a stable sort. `NULL` sorts first under `DESC`
  (PostgreSQL's default).
-/

namespace SmartReview

/-! ## Data model (`store/model.go`) -/

/-- Row of the `reviews` table; `ID = 0` is the Go zero value, a record not yet inserted. -/
structure Review where
  ID : Nat
  CreatedAt : Nat
  ProductID : Nat
  Author : String
  Title : String
  Content : String
  Rating : Int
  IAGenerated : Bool
deriving DecidableEq, Repr

/-- Row of the `products` table. `Reviews` is the in-memory association, filled only by
`GetProductAndReviewsByExternalID`; it is not a column. -/
structure Product where
  ID : Nat
  ExternalID : String
  ShopID : String
  Reviews : List Review
  Keywords : String
deriving DecidableEq, Repr

/-- The Go zero value of `Review` (`var aiReview Review`, and what `Scan` builds from a row of NULLs). -/
def Review.zero : Review :=
  { ID := 0, CreatedAt := 0, ProductID := 0, Author := "", Title := "", Content := "",
    Rating := 0, IAGenerated := false }

/-- Database contents. -/
structure Store where
  products : List Product
  reviews : List Review
  nextProductID : Nat
  nextReviewID : Nat
deriving DecidableEq, Repr

/-- Errors of the database layer: gorm's sentinel and everything else. -/
inductive DBError where
  | ErrRecordNotFound
  | other (msg : String)
deriving DecidableEq, Repr

/-- The `Error()` text of a database error. -/
def DBError.Error : DBError → String
  | .ErrRecordNotFound => "record not found"
  | .other msg => msg

/-- What the code does not control. -/
structure Env where
  /-- The call `s.ai.Generate` followed by `t.LastMessage().Contents[0].AsString()` -/
  Generate : String → Except String String
  /-- The clock gorm reads when it inserts a row -/
  now : Nat
  /-- Failure of the `First` in `GetProductByExternalID` -/
  getProductErr : Option String
  /-- Failure of the `Scan` in `GetReviewsByProductExternalID` -/
  getReviewsErr : Option String
  /-- Failure, other than record-not-found, of the `First` that looks up the synthesized review -/
  firstReviewErr : Option String
  /-- Failure of `tx.Save(&aiReview)` -/
  saveReviewErr : Option String
  /-- Failure of `s.database.Save(&product)` -/
  saveProductErr : Option String
  /-- Failure of `tx.Create(product)` -/
  createProductErr : Option String
  /-- Failure of `tx.Create(review)` -/
  createReviewErr : Option String

/-- How a call of a Go function returning `error` ends. -/
inductive Outcome where
  | ok
  | error (msg : String)
  | panicked (msg : String)
deriving DecidableEq, Repr

/-- Result of running a store operation: the database afterwards, the prompts sent to the
completion service, and how the call ended. -/
structure Run where
  store : Store
  calls : List String
  result : Outcome
deriving DecidableEq, Repr

/-! ## Queries -/

/-- Models `ORDER BY id LIMIT 1`: the element with the least key, the earlier one on a tie. -/
def firstBy {α : Type} (key : α → Nat) : List α → Option α
  | [] => none
  | x :: xs =>
    match firstBy key xs with
    | none => some x
    | some y => if key x ≤ key y then some x else some y

/-- The query `s.database.First(&product, "external_id = ?", externalID)`. -/
def Store.firstProduct (s : Store) (env : Env) (externalID : String) : Except DBError Product :=
  match env.getProductErr with
  | some msg => .error (.other msg)
  | none =>
    match firstBy Product.ID (s.products.filter (fun p => p.ExternalID = externalID)) with
    | some p => .ok p
    | none => .error .ErrRecordNotFound

/-- Go `GetProductByExternalID`. -/
def Store.GetProductByExternalID (s : Store) (env : Env) (externalID : String) :
    Except String Product :=
  match s.firstProduct env externalID with
  | .error err =>
    if err = DBError.ErrRecordNotFound then
      .error ("product not found: " ++ err.Error)
    else
      .error ("failed to get product: " ++ err.Error)
  | .ok product => .ok product

/-- Rows of `products LEFT JOIN reviews ON reviews.product_id = products.id WHERE
products.external_id = ?`, projected on `reviews.*`: a product without reviews contributes one
row of NULLs (`none`). -/
def Store.leftJoinRows (s : Store) (externalID : String) : List (Option Review) :=
  (s.products.filter (fun p => p.ExternalID = externalID)).flatMap fun p =>
    match s.reviews.filter (fun r => r.ProductID = p.ID) with
    | [] => [none]
    | r :: rs => (r :: rs).map some

/-- Models `ORDER BY reviews.ia_generated DESC`: NULL rows, then `true`, then `false`. -/
def orderByIAGeneratedDesc (rows : List (Option Review)) : List (Option Review) :=
  rows.filter (fun o => o.isNone)
    ++ rows.filter (fun o => match o with | some r => r.IAGenerated | none => false)
    ++ rows.filter (fun o => match o with | some r => !r.IAGenerated | none => false)

/-- Go `Scan` of one row into a `Review`: NULL columns leave the zero value. -/
def scanReview : Option Review → Review
  | some r => r
  | none => Review.zero

/-- The rows that the query of `GetReviewsByProductExternalID` scans into `[]Review`. -/
def Store.scanReviews (s : Store) (externalID : String) : List Review :=
  (orderByIAGeneratedDesc (s.leftJoinRows externalID)).map scanReview

/-- The query of `GetReviewsByProductExternalID` with its error. -/
def Store.queryReviews (s : Store) (env : Env) (externalID : String) :
    Except DBError (List Review) :=
  match env.getReviewsErr with
  | some msg => .error (.other msg)
  | none => .ok (s.scanReviews externalID)

/-- Go `GetReviewsByProductExternalID`. -/
def Store.GetReviewsByProductExternalID (s : Store) (env : Env) (externalID : String) :
    Except String (List Review) :=
  match s.queryReviews env externalID with
  | .error err =>
    if err = DBError.ErrRecordNotFound then
      .error ("product not found: " ++ err.Error)
    else
      .error ("failed to get reviews: " ++ err.Error)
  | .ok reviews => .ok reviews

/-- Go `GetProductAndReviewsByExternalID`. -/
def Store.GetProductAndReviewsByExternalID (s : Store) (env : Env) (externalID : String) :
    Except String Product :=
  match s.GetProductByExternalID env externalID with
  | .error err => .error err
  | .ok product =>
    match s.GetReviewsByProductExternalID env externalID with
    | .error err => .error err
    | .ok reviews => .ok { product with Reviews := reviews }

/-- The query `s.database.First(&aiReview, "product_id = ? AND ia_generated = true", productID)`. -/
def Store.firstAIReview (s : Store) (env : Env) (productID : Nat) : Except DBError Review :=
  match env.firstReviewErr with
  | some msg => .error (.other msg)
  | none =>
    match firstBy Review.ID
        (s.reviews.filter (fun r => r.ProductID = productID ∧ r.IAGenerated = true)) with
    | some r => .ok r
    | none => .error .ErrRecordNotFound

/-! ## Writes -/

/-- Text of the rejection of a `reviews` row whose `product_id` is the id of no product. -/
def foreignKeyViolation : String :=
  "insert or update on table reviews violates foreign key constraint fk_products_reviews"

/-- Text of the rejection of a `reviews` row whose explicit id is already taken. -/
def duplicateKey : String :=
  "duplicate key value violates unique constraint reviews_pkey"

/-- The foreign key of `reviews.product_id`: some product has this id. `AutoMigrate(&Product{},
&Review{})` creates the constraint from the association `Product.Reviews` and the column
`Review.ProductID`. -/
def Store.hasProduct (s : Store) (productID : Nat) : Bool :=
  s.products.any (fun p => p.ID = productID)

/-- The table after an accepted insert: the database assigns the next id when the record has
none, gorm stamps `CreatedAt` when it is zero. -/
def Store.appendReview (s : Store) (now : Nat) (r : Review) : Store :=
  if r.ID = 0 then
    { s with
      reviews := s.reviews ++
        [{ r with ID := s.nextReviewID, CreatedAt := if r.CreatedAt = 0 then now else r.CreatedAt }]
      nextReviewID := s.nextReviewID + 1 }
  else
    { s with
      reviews := s.reviews ++
        [{ r with CreatedAt := if r.CreatedAt = 0 then now else r.CreatedAt }] }

/-- Insert of a review row: rejected when the foreign key or the primary key is violated. -/
def Store.insertReview (s : Store) (now : Nat) (r : Review) : Except DBError Store :=
  if s.hasProduct r.ProductID = false then .error (.other foreignKeyViolation)
  else if r.ID ≠ 0 ∧ s.reviews.any (fun x => x.ID = r.ID) = true then
    .error (.other duplicateKey)
  else .ok (s.appendReview now r)

/-- Go `tx.Save(&aiReview)`: insert when the primary key is zero, otherwise update every column of
the row with that key (and insert when there is no such row); the foreign key is checked on
every write. -/
def Store.saveReview (s : Store) (env : Env) (r : Review) : Except DBError Store :=
  match env.saveReviewErr with
  | some msg => .error (.other msg)
  | none =>
    if r.ID = 0 then s.insertReview env.now r
    else if s.reviews.any (fun x => x.ID = r.ID) then
      if s.hasProduct r.ProductID = false then .error (.other foreignKeyViolation)
      else .ok { s with reviews := s.reviews.map (fun x => if x.ID = r.ID then r else x) }
    else s.insertReview env.now r

/-- Go `s.database.Save(&product)`: as `saveReview`, on the `products` table. -/
def Store.saveProduct (s : Store) (env : Env) (p : Product) : Except DBError Store :=
  match env.saveProductErr with
  | some msg => .error (.other msg)
  | none =>
    if p.ID = 0 then
      .ok { s with
        products := s.products ++ [{ p with ID := s.nextProductID }]
        nextProductID := s.nextProductID + 1 }
    else if s.products.any (fun x => x.ID = p.ID) then
      .ok { s with products := s.products.map (fun x => if x.ID = p.ID then p else x) }
    else .ok { s with products := s.products ++ [p] }

/-- Go `CreateProduct`: returns the store and the product with its id filled in (`product` is a
pointer in the source). -/
def Store.CreateProduct (s : Store) (env : Env) (product : Product) :
    Except String (Store × Product) :=
  match env.createProductErr with
  | some msg => .error ("failed to create product: " ++ msg)
  | none =>
    let created : Product :=
      if product.ID = 0 then { product with ID := s.nextProductID } else product
    .ok ({ s with
            products := s.products ++ [created]
            nextProductID := if product.ID = 0 then s.nextProductID + 1 else s.nextProductID },
         created)

/-- Go `CreateReview`. -/
def Store.CreateReview (s : Store) (env : Env) (review : Review) : Except String (Store × Nat) :=
  match env.createReviewErr with
  | some msg => .error ("failed to create review: " ++ msg)
  | none =>
    match s.insertReview env.now review with
    | .error err => .error ("failed to create review: " ++ err.Error)
    | .ok s' => .ok (s', if review.ID = 0 then s.nextReviewID else review.ID)

/-! ## Prompts -/

/-- The fixed directive of the summary prompt. -/
def summaryDirective : String :=
  "Need a resume of this reviews in English with less than 200 characters, only the resume, don put anything else"

/-- The fixed directive of the keywords prompt. -/
def keywordsDirective : String :=
  "Of this list of reviews separated by a new line, take at most the 5 most important " ++
    "and repeated keywords and only return this in this format: word1,word2,word3,word4,word5"

/-- The loop of `CreateSmartReview` that builds `content`. -/
def summaryContent (reviews : List Review) : String :=
  reviews.foldl
    (fun content review =>
      if !review.IAGenerated then
        content ++ ("title:" ++ review.Title ++ " Review:" ++ review.Content ++ "\n")
      else content)
    ""

/-- The loop of `CreateReviewsKeywords` that builds `content`. -/
def keywordsContent (reviews : List Review) : String :=
  reviews.foldl
    (fun content review =>
      if !review.IAGenerated then content ++ (review.Content ++ "\n") else content)
    ""

/-- The text of the user message of `CreateSmartReview`. -/
def summaryPrompt (reviews : List Review) : String :=
  summaryDirective ++ summaryContent reviews

/-- The text of the user message of `CreateReviewsKeywords`. -/
def keywordsPrompt (reviews : List Review) : String :=
  keywordsDirective ++ keywordsContent reviews

/-! ## The two synthesis operations (`store/store.go`) -/

/-- The reserved author and title of the synthesized review. -/
def aiLabel : String := "AI Generated Summary Review"

/-- Go `CreateSmartReview`. -/
def Store.CreateSmartReview (s : Store) (env : Env) (externalID : String) : Run :=
  match s.GetReviewsByProductExternalID env externalID with
  | .error err => { store := s, calls := [], result := .error err }
  | .ok [] => { store := s, calls := [], result := .ok }
  | .ok (first :: rest) =>
    if ((first :: rest).length + 1) % 3 ≠ 0 then
      { store := s, calls := [], result := .ok }
    else
      let prompt := summaryPrompt (first :: rest)
      match env.Generate prompt with
      | .error err => { store := s, calls := [prompt], result := .panicked err }
      | .ok summary =>
        let aiReview : Review :=
          match s.firstAIReview env first.ProductID with
          | .error err =>
            if err = DBError.ErrRecordNotFound then
              { ID := 0, CreatedAt := 0, ProductID := first.ProductID, Author := aiLabel,
                Title := aiLabel, Content := summary, Rating := 0, IAGenerated := true }
            else Review.zero
          | .ok found => { found with Content := summary }
        match s.saveReview env aiReview with
        | .error err =>
          { store := s, calls := [prompt],
            result := .error ("failed to create review: " ++ err.Error) }
        | .ok s' => { store := s', calls := [prompt], result := .ok }

/-- Go `CreateReviewsKeywords`. -/
def Store.CreateReviewsKeywords (s : Store) (env : Env) (externalID : String) : Run :=
  match s.GetReviewsByProductExternalID env externalID with
  | .error err => { store := s, calls := [], result := .error err }
  | .ok [] => { store := s, calls := [], result := .ok }
  | .ok (first :: rest) =>
    if ((first :: rest).length + 1) % 2 ≠ 0 then
      { store := s, calls := [], result := .ok }
    else
      let prompt := keywordsPrompt (first :: rest)
      match env.Generate prompt with
      | .error err => { store := s, calls := [prompt], result := .panicked err }
      | .ok keywords =>
        match s.GetProductByExternalID env externalID with
        | .error err => { store := s, calls := [prompt], result := .error err }
        | .ok product =>
          match s.saveProduct env { product with Keywords := keywords } with
          | .error err =>
            { store := s, calls := [prompt],
              result := .error ("failed to create review: " ++ err.Error) }
          | .ok s' => { store := s', calls := [prompt], result := .ok }

/-! ## The review routes (`api/api.go`, `api/types.go`) -/

/-- Go `ReviewInput`. -/
structure ReviewInput where
  Author : String
  Title : String
  Content : String
  Rating : Int
deriving DecidableEq, Repr

/-- Go `ProductInput`. -/
structure ProductInput where
  ShopID : String
  Review : ReviewInput
deriving DecidableEq, Repr

/-- Go `ReviewResponse`. -/
structure ReviewResponse where
  Author : String
  Title : String
  Content : String
  Rating : Int
  ReviewDate : String
deriving DecidableEq, Repr

/-- Go `ProductResponse`; the `float32` field `AverageRating`, which `parseResponse` leaves at
zero, is not represented. -/
structure ProductResponse where
  ExternalID : String
  ReviewsQuantity : Int
  AISummary : String
  Keywords : List String
  Reviews : List ReviewResponse
deriving DecidableEq, Repr

/-- What a handler does to the request: a JSON answer with a status, or a panic that unwinds
it. -/
inductive Response where
  | json (status : Nat) (message : String)
  | panicked (msg : String)
deriving DecidableEq, Repr

/-- Result of handling one request. -/
structure Handled where
  store : Store
  calls : List String
  response : Response
deriving DecidableEq, Repr

/-- Go `formatKeywords`: `strings.Split(keywords, ",")`. -/
def formatKeywords (keywords : String) : List String :=
  keywords.splitOn ","

/-- Go `parseReviewInput`. -/
def parseReviewInput (id : Nat) (review : ReviewInput) : Review :=
  { ID := 0, CreatedAt := 0, ProductID := id, Author := review.Author, Title := review.Title,
    Content := review.Content, Rating := review.Rating, IAGenerated := false }

/-- Go `parseResponse`; `timeString` stands for `time.Time.String`. -/
def parseResponse (timeString : Nat → String) (product : Product) : ProductResponse :=
  let acc : List ReviewResponse × String :=
    product.Reviews.foldl
      (fun acc review =>
        if !review.IAGenerated then
          (acc.1 ++ [{ Author := review.Author, Title := review.Title, Content := review.Content,
                       Rating := review.Rating, ReviewDate := timeString review.CreatedAt }],
           acc.2)
        else (acc.1, review.Content))
      ([], "")
  { ExternalID := product.ExternalID, ReviewsQuantity := 0, AISummary := acc.2,
    Keywords := formatKeywords product.Keywords, Reviews := acc.1 }

/-- The handler of `POST /product/:external_id/review`. `body` is the result of `c.BindJSON`;
`envH` answers the handler's own database accesses, `envS` and `envK` those of
`CreateSmartReview` and `CreateReviewsKeywords`. -/
def postReview (s : Store) (envH envS envK : Env) (externalID : String)
    (body : Except String ProductInput) : Handled :=
  match body with
  | .error err => { store := s, calls := [], response := .json 400 err }
  | .ok productReview =>
    let found : Except String (Store × Product) :=
      match s.GetProductByExternalID envH externalID with
      | .ok product => .ok (s, product)
      | .error err =>
        if err = "product not found: record not found" then
          s.CreateProduct envH
            { ID := 0, ExternalID := externalID, ShopID := productReview.ShopID, Reviews := [],
              Keywords := "" }
        else .error err
    match found with
    | .error err => { store := s, calls := [], response := .json 500 err }
    | .ok (s0, product) =>
      let r1 := s0.CreateSmartReview envS product.ExternalID
      match r1.result with
      | .panicked msg => { store := r1.store, calls := r1.calls, response := .panicked msg }
      | .error err => { store := r1.store, calls := r1.calls, response := .json 500 err }
      | .ok =>
        let r2 := r1.store.CreateReviewsKeywords envK product.ExternalID
        match r2.result with
        | .panicked msg =>
          { store := r2.store, calls := r1.calls ++ r2.calls, response := .panicked msg }
        | .error err =>
          { store := r2.store, calls := r1.calls ++ r2.calls, response := .json 500 err }
        | .ok =>
          match r2.store.CreateReview envH (parseReviewInput product.ID productReview.Review) with
          | .error err =>
            { store := r2.store, calls := r1.calls ++ r2.calls, response := .json 500 err }
          | .ok (s3, _) =>
            { store := s3, calls := r1.calls ++ r2.calls,
              response := .json 201 "Review created" }


/-! ## Specification-side definitions -/

/-- The human (not synthesized) reviews of a list, in order. -/
def humanReviews (reviews : List Review) : List Review :=
  reviews.filter (fun r => !r.IAGenerated)

/-- The response entry of a human review. -/
def toReviewResponse (timeString : Nat → String) (r : Review) : ReviewResponse :=
  { Author := r.Author, Title := r.Title, Content := r.Content, Rating := r.Rating,
    ReviewDate := timeString r.CreatedAt }

/-- Content of the last synthesized review of a list, the empty string when there is none. -/
def lastSummary (reviews : List Review) : String :=
  match (reviews.filter (fun r => r.IAGenerated)).getLast? with
  | some r => r.Content
  | none => ""

/-- Number of synthesized reviews stored for a product id. -/
def Store.summaryCount (s : Store) (productID : Nat) : Nat :=
  (s.reviews.filter (fun r => r.ProductID = productID ∧ r.IAGenerated = true)).length

/-- At most one synthesized review per product id. -/
def Store.AtMostOneSummary (s : Store) : Prop :=
  ∀ productID : Nat, s.summaryCount productID ≤ 1

/-- Primary key of the reviews table: ids are distinct, positive and below the counter, which
starts at 1. -/
def Store.ReviewKeys (s : Store) : Prop :=
  (s.reviews.map Review.ID).Nodup ∧ (∀ r ∈ s.reviews, 0 < r.ID ∧ r.ID < s.nextReviewID) ∧
    0 < s.nextReviewID

/-- Keys of the products table: ids are distinct, positive and below the counter, which starts
at 1, and external ids are distinct. -/
def Store.ProductKeys (s : Store) : Prop :=
  (s.products.map Product.ID).Nodup ∧ (∀ p ∈ s.products, 0 < p.ID ∧ p.ID < s.nextProductID) ∧
    (s.products.map Product.ExternalID).Nodup ∧ 0 < s.nextProductID

instance (s : Store) : Decidable s.ReviewKeys := by
  unfold Store.ReviewKeys
  infer_instance

instance (s : Store) : Decidable s.ProductKeys := by
  unfold Store.ProductKeys
  infer_instance

/-- An environment without database failures whose completion service answers `text`. -/
def Env.answering (text : String) : Env :=
  { Generate := fun _ => .ok text, now := 7, getProductErr := none, getReviewsErr := none,
    firstReviewErr := none, saveReviewErr := none, saveProductErr := none,
    createProductErr := none, createReviewErr := none }

/-- An environment without database failures whose completion service fails with `msg`. -/
def Env.failing (msg : String) : Env :=
  { Env.answering "" with Generate := fun _ => .error msg }

/-- An environment whose completion service answers `text` and in which only the lookup of the
synthesized review fails, with a database error `msg` that is not record-not-found. -/
def Env.lookupFailing (text msg : String) : Env :=
  { Env.answering text with firstReviewErr := some msg }

/-- No database access of the environment fails. -/
def Env.NoFault (env : Env) : Prop :=
  env.getProductErr = none ∧ env.getReviewsErr = none ∧ env.firstReviewErr = none ∧
    env.saveReviewErr = none ∧ env.saveProductErr = none ∧ env.createProductErr = none ∧
    env.createReviewErr = none

instance (env : Env) : Decidable env.NoFault := by
  unfold Env.NoFault
  infer_instance

/-! ## Example data -/

/-- A human review with the given key, product and content. -/
def exampleReview (id productID : Nat) (content : String) : Review :=
  { ID := id, CreatedAt := 1, ProductID := productID, Author := "ann", Title := "t",
    Content := content, Rating := 5, IAGenerated := false }

/-- A synthesized review with the given key, product and content. -/
def exampleSummary (id productID : Nat) (content : String) : Review :=
  { ID := id, CreatedAt := 2, ProductID := productID, Author := aiLabel, Title := aiLabel,
    Content := content, Rating := 0, IAGenerated := true }

/-- The product of the examples. -/
def exampleProduct : Product :=
  { ID := 1, ExternalID := "x", ShopID := "shop", Reviews := [], Keywords := "old" }

/-- A database without products. -/
def storeEmpty : Store :=
  { products := [], reviews := [], nextProductID := 1, nextReviewID := 1 }

/-- The product exists and has no review. -/
def storeNoReviews : Store :=
  { products := [exampleProduct], reviews := [], nextProductID := 2, nextReviewID := 1 }

/-- The product has two human reviews. -/
def storeTwoHuman : Store :=
  { products := [exampleProduct], reviews := [exampleReview 1 1 "good", exampleReview 2 1 "bad"],
    nextProductID := 2, nextReviewID := 3 }

/-- The product has one human review. -/
def storeOneHuman : Store :=
  { products := [exampleProduct], reviews := [exampleReview 1 1 "good"],
    nextProductID := 2, nextReviewID := 2 }

/-- The product has a synthesized review and a human one. -/
def storeWithSummary : Store :=
  { products := [exampleProduct],
    reviews := [exampleReview 1 1 "good", exampleSummary 2 1 "stale"],
    nextProductID := 2, nextReviewID := 3 }

/-- The request body of the examples. -/
def exampleInput : ProductInput :=
  { ShopID := "shop", Review := { Author := "bob", Title := "third", Content := "fine", Rating := 4 } }

/-! # Theorems -/

/-! ## Prompt assembly -/

theorem parseResponse_foldl (timeString : Nat → String) (l : List Review)
    (acc : List ReviewResponse × String) :
    l.foldl
      (fun acc review =>
        if !review.IAGenerated then
          (acc.1 ++ [{ Author := review.Author, Title := review.Title, Content := review.Content,
                       Rating := review.Rating, ReviewDate := timeString review.CreatedAt }],
           acc.2)
        else (acc.1, review.Content)) acc
      = (acc.1 ++ (humanReviews l).map (toReviewResponse timeString),
         match (l.filter (fun r => r.IAGenerated)).getLast? with
         | some r => r.Content
         | none => acc.2) := by
  induction l generalizing acc with
  | nil => simp [humanReviews]
  | cons a l ih =>
    cases ha : a.IAGenerated
    · simp only [List.foldl_cons, ha, Bool.not_false, if_true]
      rw [ih]
      simp [humanReviews, ha, toReviewResponse]
    · simp only [List.foldl_cons, ha, Bool.not_true, Bool.false_eq_true, if_false, ih]
      simp only [humanReviews, List.filter_cons, ha, Bool.not_true, Bool.false_eq_true, if_false,
        if_true, List.getLast?_cons]
      cases (List.filter (fun r => r.IAGenerated) l).getLast? <;> simp

/-! ## Queries -/

theorem firstBy_mem {α : Type} (key : α → Nat) :
    ∀ (l : List α) (a : α), firstBy key l = some a → a ∈ l := by
  intro l
  induction l with
  | nil => intro a h; simp [firstBy] at h
  | cons x xs ih =>
    intro a h
    unfold firstBy at h
    cases hxs : firstBy key xs with
    | none =>
      rw [hxs] at h
      simp at h
      simp [h]
    | some y =>
      rw [hxs] at h
      simp only at h
      split at h
      · simp at h; simp [h]
      · simp at h
        subst h
        exact List.mem_cons_of_mem _ (ih _ hxs)

theorem firstBy_eq_none {α : Type} (key : α → Nat) (l : List α) :
    firstBy key l = none ↔ l = [] := by
  cases l with
  | nil => simp [firstBy]
  | cons x xs =>
    unfold firstBy
    cases firstBy key xs with
    | none => simp
    | some y => simp only; split <;> simp

theorem filter_eq_singleton {α β : Type} [DecidableEq β] (f : α → β) :
    ∀ (l : List α) (a : α), (l.map f).Nodup → a ∈ l →
      l.filter (fun x => f x = f a) = [a] := by
  intro l
  induction l with
  | nil => intro a _ h; simp at h
  | cons x xs ih =>
    intro a hnd ha
    rw [List.map_cons, List.nodup_cons] at hnd
    rcases List.mem_cons.mp ha with rfl | hmem
    · have : xs.filter (fun x => f x = f a) = [] := by
        rw [List.filter_eq_nil_iff]
        intro y hy hfy
        simp at hfy
        exact hnd.1 (hfy ▸ List.mem_map_of_mem f hy)
      simp [List.filter_cons, this]
    · have hne : f x ≠ f a := by
        intro hfx
        exact hnd.1 (hfx ▸ List.mem_map_of_mem f hmem)
      simp [List.filter_cons, hne, ih a hnd.2 hmem]

theorem eq_of_mem_of_key_eq {α β : Type} (f : α → β) (l : List α) (hnd : (l.map f).Nodup)
    {a b : α} (ha : a ∈ l) (hb : b ∈ l) (h : f a = f b) : a = b :=
  List.inj_on_of_nodup_map hnd ha hb h

/-- With distinct external ids, the product lookup finds the product. -/
theorem products_filter_externalID (s : Store) (hk : s.ProductKeys) (p : Product)
    (hp : p ∈ s.products) :
    s.products.filter (fun q => q.ExternalID = p.ExternalID) = [p] := by
  have := filter_eq_singleton Product.ExternalID s.products p hk.2.2.1 hp
  simpa using this

theorem GetProductByExternalID_of_mem (s : Store) (env : Env) (hk : s.ProductKeys) (p : Product)
    (hp : p ∈ s.products) (hf : env.getProductErr = none) :
    s.GetProductByExternalID env p.ExternalID = .ok p := by
  simp [Store.GetProductByExternalID, Store.firstProduct, hf,
    products_filter_externalID s hk p hp, firstBy]

/-- The rows loaded for a product with at least one review: its synthesized reviews, then its
human reviews, each group in table order. -/
theorem scanReviews_of_reviews (s : Store) (hk : s.ProductKeys) (p : Product)
    (hp : p ∈ s.products) (hne : s.reviews.filter (fun r => r.ProductID = p.ID) ≠ []) :
    s.scanReviews p.ExternalID =
      (s.reviews.filter (fun r => r.ProductID = p.ID)).filter (fun r => r.IAGenerated)
        ++ humanReviews (s.reviews.filter (fun r => r.ProductID = p.ID)) := by
  unfold Store.scanReviews Store.leftJoinRows
  rw [products_filter_externalID s hk p hp]
  simp only [List.flatMap_cons, List.flatMap_nil, List.append_nil]
  obtain ⟨r, rs, hl⟩ := List.exists_cons_of_ne_nil hne
  rw [hl]
  simp only []
  generalize r :: rs = l
  simp [orderByIAGeneratedDesc, List.filter_map, List.map_map, Function.comp_def, humanReviews,
    scanReview]

/-- The rows loaded for a product without reviews: one zero-valued review. -/
theorem scanReviews_of_no_reviews (s : Store) (hk : s.ProductKeys) (p : Product)
    (hp : p ∈ s.products) (hnil : s.reviews.filter (fun r => r.ProductID = p.ID) = []) :
    s.scanReviews p.ExternalID = [Review.zero] := by
  unfold Store.scanReviews Store.leftJoinRows
  rw [products_filter_externalID s hk p hp]
  simp [hnil, orderByIAGeneratedDesc, scanReview]

/-- No product with the external id: no rows. -/
theorem scanReviews_of_no_product (s : Store) (externalID : String)
    (h : s.products.filter (fun p => p.ExternalID = externalID) = []) :
    s.scanReviews externalID = [] := by
  simp [Store.scanReviews, Store.leftJoinRows, h, orderByIAGeneratedDesc]

/-! ## Effect of `CreateSmartReview` on the store -/

theorem firstAIReview_ok (s : Store) (env : Env) (productID : Nat) (found : Review)
    (h : s.firstAIReview env productID = .ok found) :
    found ∈ s.reviews ∧ found.ProductID = productID ∧ found.IAGenerated = true ∧
      env.firstReviewErr = none := by
  unfold Store.firstAIReview at h
  split at h
  · simp at h
  · rename_i hf
    split at h
    · rename_i r hr
      have hmem := firstBy_mem _ _ _ hr
      simp only [Except.ok.injEq] at h
      subst h
      rw [List.mem_filter] at hmem
      simp at hmem
      exact ⟨hmem.1, hmem.2.1, hmem.2.2, hf⟩
    · simp at h

theorem firstAIReview_notFound (s : Store) (env : Env) (productID : Nat)
    (h : s.firstAIReview env productID = .error .ErrRecordNotFound) :
    s.summaryCount productID = 0 ∧ env.firstReviewErr = none := by
  unfold Store.firstAIReview at h
  split at h
  · simp at h
  · rename_i hf
    split at h
    · simp at h
    · rename_i hr
      rw [firstBy_eq_none] at hr
      rw [Store.summaryCount, hr]
      exact ⟨rfl, hf⟩

theorem hasProduct_of_mem (s : Store) (p : Product) (hp : p ∈ s.products) :
    s.hasProduct p.ID = true := by
  unfold Store.hasProduct
  rw [List.any_eq_true]
  exact ⟨p, hp, by simp⟩

theorem hasProduct_zero (s : Store) (hpk : s.ProductKeys) : s.hasProduct 0 = false := by
  unfold Store.hasProduct
  rw [List.any_eq_false]
  intro p hp
  have := (hpk.2.1 p hp).1
  simp
  omega

theorem insertReview_ok (s : Store) (now : Nat) (r : Review)
    (hfk : s.hasProduct r.ProductID = true) (h0 : r.ID = 0) :
    s.insertReview now r = .ok (s.appendReview now r) := by
  simp [Store.insertReview, hfk, h0]

theorem insertReview_foreignKey (s : Store) (now : Nat) (r : Review)
    (hfk : s.hasProduct r.ProductID = false) :
    s.insertReview now r = .error (.other foreignKeyViolation) := by
  simp [Store.insertReview, hfk]

theorem saveReview_cases (s : Store) (env : Env) (a : Review) :
    (∃ msg, s.saveReview env a = .error (.other msg)) ∨
    (env.saveReviewErr = none ∧ a.ID = 0 ∧ s.saveReview env a = .ok (s.appendReview env.now a)) ∨
    (env.saveReviewErr = none ∧ a.ID ≠ 0 ∧ (∃ x ∈ s.reviews, x.ID = a.ID) ∧
      s.saveReview env a =
        .ok { s with reviews := s.reviews.map (fun x => if x.ID = a.ID then a else x) }) ∨
    (env.saveReviewErr = none ∧ a.ID ≠ 0 ∧ (∀ x ∈ s.reviews, x.ID ≠ a.ID) ∧
      s.saveReview env a = .ok (s.appendReview env.now a)) := by
  unfold Store.saveReview Store.insertReview
  cases hf : env.saveReviewErr with
  | some msg => left; exact ⟨msg, rfl⟩
  | none =>
    cases hfk : s.hasProduct a.ProductID with
    | false =>
      left
      by_cases h0 : a.ID = 0
      · exact ⟨foreignKeyViolation, by simp [h0]⟩
      · by_cases hany : (s.reviews.any fun x => decide (x.ID = a.ID)) = true
        · exact ⟨foreignKeyViolation, by simp only [h0, hany, if_true, if_false]⟩
        · exact ⟨foreignKeyViolation, by simp only [h0, hany, if_true, if_false]; simp⟩
    | true =>
      right
      by_cases h0 : a.ID = 0
      · left; simp [h0]
      · right
        by_cases hany : ∃ x ∈ s.reviews, x.ID = a.ID
        · left
          refine ⟨rfl, h0, hany, ?_⟩
          have : (s.reviews.any fun x => decide (x.ID = a.ID)) = true := by
            simpa [List.any_eq_true] using hany
          simp [h0, this]
        · right
          push_neg at hany
          refine ⟨rfl, h0, hany, ?_⟩
          have : (s.reviews.any fun x => decide (x.ID = a.ID)) = false := by
            simpa [List.any_eq_false] using hany
          simp [h0, this]

/-- What `CreateSmartReview` can do to the database: nothing, one insert of a record that is
either not synthesized or the first synthesized one of its product, or the replacement of the
content of a stored synthesized record. -/
theorem CreateSmartReview_effect (s : Store) (env : Env) (externalID : String)
    (hk : s.ReviewKeys) :
    (s.CreateSmartReview env externalID).store = s ∨
    (∃ a : Review, a.ID = 0 ∧ (a.IAGenerated = true → s.summaryCount a.ProductID = 0) ∧
      (s.CreateSmartReview env externalID).store = s.appendReview env.now a) ∨
    (∃ found ∈ s.reviews, ∃ c : String, found.IAGenerated = true ∧
      (s.CreateSmartReview env externalID).store =
        { s with reviews :=
            s.reviews.map (fun x => if x.ID = found.ID then { found with Content := c } else x) }) := by
  unfold Store.CreateSmartReview
  split
  · left; rfl
  · left; rfl
  · rename_i first rest _
    split
    · left; rfl
    · simp only []
      split
      · left; rfl
      · rename_i summary _
        cases hfa : s.firstAIReview env first.ProductID with
        | error err =>
          simp only []
          by_cases hnf : err = DBError.ErrRecordNotFound
          · subst hnf
            simp only [if_true]
            rcases saveReview_cases s env
              { ID := 0, CreatedAt := 0, ProductID := first.ProductID, Author := aiLabel,
                Title := aiLabel, Content := summary, Rating := 0, IAGenerated := true }
              with ⟨msg, h⟩ | ⟨_, _, h⟩ | ⟨_, h0, _⟩ | ⟨_, h0, _⟩
            · rw [h]; left; rfl
            · rw [h]; simp only []; right; left
              refine ⟨_, ?_, ?_, rfl⟩
              · rfl
              · exact fun _ => (firstAIReview_notFound s env _ hfa).1
            · exact absurd rfl h0
            · exact absurd rfl h0
          · simp only [hnf, if_false]
            rcases saveReview_cases s env Review.zero
              with ⟨msg, h⟩ | ⟨_, _, h⟩ | ⟨_, h0, _⟩ | ⟨_, h0, _⟩
            · rw [h]; left; rfl
            · rw [h]; simp only []; right; left
              exact ⟨Review.zero, rfl, fun h => by simp [Review.zero] at h, rfl⟩
            · exact absurd rfl h0
            · exact absurd rfl h0
        | ok found =>
          simp only []
          obtain ⟨hmem, _, hai, _⟩ := firstAIReview_ok s env _ found hfa
          have hpos := (hk.2.1 found hmem).1
          rcases saveReview_cases s env { found with Content := summary }
            with ⟨msg, h⟩ | ⟨_, h0, _⟩ | ⟨_, _, _, h⟩ | ⟨_, _, hno, _⟩
          · rw [h]; left; rfl
          · simp at h0; omega
          · rw [h]; simp only []; right; right
            exact ⟨found, hmem, summary, hai, rfl⟩
          · exact absurd rfl (hno found hmem)

theorem appendReview_fresh (s : Store) (now : Nat) (a : Review) (h0 : a.ID = 0) :
    s.appendReview now a =
      { s with
        reviews := s.reviews ++
          [{ a with ID := s.nextReviewID, CreatedAt := if a.CreatedAt = 0 then now else a.CreatedAt }]
        nextReviewID := s.nextReviewID + 1 } := by
  simp [Store.appendReview, h0]

theorem ReviewKeys_insert (s : Store) (now : Nat) (a : Review) (h0 : a.ID = 0)
    (hk : s.ReviewKeys) : (s.appendReview now a).ReviewKeys := by
  rw [appendReview_fresh s now a h0]
  obtain ⟨hnd, hb, hpos⟩ := hk
  refine ⟨?_, ?_, ?_⟩
  · simp only [List.map_append, List.map_cons, List.map_nil]
    rw [List.nodup_append]
    refine ⟨hnd, by simp, ?_⟩
    intro i hi hi'
    simp only [List.mem_singleton] at hi'
    obtain ⟨r, hr, hri⟩ := List.mem_map.mp hi
    have := (hb r hr).2
    omega
  · intro r hr
    simp only [List.mem_append, List.mem_singleton] at hr
    rcases hr with hr | rfl
    · have := hb r hr
      simp only
      omega
    · simp only
      omega
  · simp only
    omega

theorem map_replace_ID (l : List Review) (found : Review) (c : String) :
    (l.map (fun x => if x.ID = found.ID then { found with Content := c } else x)).map Review.ID
      = l.map Review.ID := by
  rw [List.map_map]
  apply List.map_congr_left
  intro x _
  by_cases h : x.ID = found.ID <;> simp [h]

theorem ReviewKeys_replace (s : Store) (found : Review) (c : String) (hk : s.ReviewKeys) :
    Store.ReviewKeys
      { s with reviews :=
          s.reviews.map (fun x => if x.ID = found.ID then { found with Content := c } else x) } := by
  obtain ⟨hnd, hb, hpos⟩ := hk
  refine ⟨?_, ?_, hpos⟩
  · simp only [map_replace_ID]
    exact hnd
  · intro r hr
    simp only [List.mem_map] at hr
    obtain ⟨x, hx, rfl⟩ := hr
    by_cases h : x.ID = found.ID
    · simp only [h, if_true]
      rw [← h]
      exact hb x hx
    · simp only [h, if_false]
      exact hb x hx

/-- The primary-key discipline of the reviews table survives `CreateSmartReview`. -/
theorem CreateSmartReview_ReviewKeys (s : Store) (env : Env) (externalID : String)
    (hk : s.ReviewKeys) : (s.CreateSmartReview env externalID).store.ReviewKeys := by
  rcases CreateSmartReview_effect s env externalID hk with h | ⟨a, h0, _, h⟩ | ⟨found, _, c, _, h⟩
  · rw [h]; exact hk
  · rw [h]; exact ReviewKeys_insert s env.now a h0 hk
  · rw [h]; exact ReviewKeys_replace s found c hk

theorem summaryCount_insert (s : Store) (now : Nat) (a : Review) (h0 : a.ID = 0) (pid : Nat) :
    (s.appendReview now a).summaryCount pid =
      s.summaryCount pid + (if a.ProductID = pid ∧ a.IAGenerated = true then 1 else 0) := by
  rw [appendReview_fresh s now a h0]
  simp only [Store.summaryCount, List.filter_append, List.length_append]
  by_cases h : a.ProductID = pid ∧ a.IAGenerated = true
  · simp [List.filter_cons, h]
  · simp [List.filter_cons, h]

theorem summaryCount_replace (s : Store) (found : Review) (c : String) (hk : s.ReviewKeys)
    (hmem : found ∈ s.reviews) (pid : Nat) :
    Store.summaryCount
      { s with reviews :=
          s.reviews.map (fun x => if x.ID = found.ID then { found with Content := c } else x) } pid
      = s.summaryCount pid := by
  simp only [Store.summaryCount, List.filter_map, List.length_map]
  congr 1
  apply List.filter_congr
  intro x hx
  by_cases h : x.ID = found.ID
  · have : x = found := eq_of_mem_of_key_eq Review.ID s.reviews hk.1 hx hmem h
    subst this
    simp
  · simp [h]

/-- The number of synthesized reviews of a product never decreases. -/
theorem CreateSmartReview_summaryCount_mono (s : Store) (env : Env) (externalID : String)
    (hk : s.ReviewKeys) (pid : Nat) :
    s.summaryCount pid ≤ (s.CreateSmartReview env externalID).store.summaryCount pid := by
  rcases CreateSmartReview_effect s env externalID hk with h | ⟨a, h0, _, h⟩ | ⟨found, hm, c, _, h⟩
  · rw [h]
  · rw [h, summaryCount_insert s env.now a h0]; omega
  · rw [h, summaryCount_replace s found c hk hm]

/-- A product id with at most one synthesized review still has at most one afterwards. -/
theorem CreateSmartReview_summaryCount_le_one (s : Store) (env : Env) (externalID : String)
    (hk : s.ReviewKeys) (pid : Nat) (h1 : s.summaryCount pid ≤ 1) :
    (s.CreateSmartReview env externalID).store.summaryCount pid ≤ 1 := by
  rcases CreateSmartReview_effect s env externalID hk with h | ⟨a, h0, ha, h⟩ | ⟨found, hm, c, _, h⟩
  · rw [h]; exact h1
  · rw [h, summaryCount_insert s env.now a h0]
    by_cases hc : a.ProductID = pid ∧ a.IAGenerated = true
    · have := ha hc.2
      rw [hc.1] at this
      simp [hc, this]
    · simp [hc, h1]
  · rw [h, summaryCount_replace s found c hk hm]; exact h1

/-! ## A run of `CreateSmartReview` that fires -/

theorem GetReviews_ok (s : Store) (env : Env) (externalID : String) (l : List Review)
    (h : s.GetReviewsByProductExternalID env externalID = .ok l) :
    l = s.scanReviews externalID ∧ env.getReviewsErr = none := by
  unfold Store.GetReviewsByProductExternalID Store.queryReviews at h
  cases hf : env.getReviewsErr with
  | some msg => rw [hf] at h; simp at h
  | none =>
    rw [hf] at h
    simp at h
    exact ⟨h.symm, rfl⟩

theorem GetReviews_of_noFault (s : Store) (env : Env) (externalID : String)
    (hf : env.getReviewsErr = none) :
    s.GetReviewsByProductExternalID env externalID = .ok (s.scanReviews externalID) := by
  simp [Store.GetReviewsByProductExternalID, Store.queryReviews, hf]

/-- The run of `CreateSmartReview` once the trigger has fired and the completion service has
answered: the record chosen by the lookup is saved. -/
theorem CreateSmartReview_fired (s : Store) (env : Env) (externalID : String)
    (first : Review) (rest : List Review) (text : String)
    (hload : s.GetReviewsByProductExternalID env externalID = .ok (first :: rest))
    (htrig : ((first :: rest).length + 1) % 3 = 0)
    (hgen : env.Generate (summaryPrompt (first :: rest)) = .ok text) :
    s.CreateSmartReview env externalID =
      match s.saveReview env
          (match s.firstAIReview env first.ProductID with
           | .error err =>
             if err = DBError.ErrRecordNotFound then
               { ID := 0, CreatedAt := 0, ProductID := first.ProductID, Author := aiLabel,
                 Title := aiLabel, Content := text, Rating := 0, IAGenerated := true }
             else Review.zero
           | .ok found => { found with Content := text }) with
      | .error err =>
        { store := s, calls := [summaryPrompt (first :: rest)],
          result := .error ("failed to create review: " ++ err.Error) }
      | .ok s' => { store := s', calls := [summaryPrompt (first :: rest)], result := .ok } := by
  unfold Store.CreateSmartReview
  rw [hload]
  simp only [htrig, ne_eq, not_true_eq_false, if_false]
  rw [hgen]

/-- A run that called the completion service loaded a non-empty list on a trigger boundary and
sent exactly the summary prompt of that list. -/
theorem CreateSmartReview_calls (s : Store) (env : Env) (externalID : String)
    (h : (s.CreateSmartReview env externalID).calls ≠ []) :
    ∃ first rest, s.GetReviewsByProductExternalID env externalID = .ok (first :: rest) ∧
      ((first :: rest).length + 1) % 3 = 0 ∧
      (s.CreateSmartReview env externalID).calls = [summaryPrompt (first :: rest)] := by
  have key : ∃ first rest, s.GetReviewsByProductExternalID env externalID = .ok (first :: rest) ∧
      ((first :: rest).length + 1) % 3 = 0 := by
    unfold Store.CreateSmartReview at h
    split at h
    · exact absurd rfl h
    · exact absurd rfl h
    · rename_i first rest hload
      split at h
      · exact absurd rfl h
      · rename_i htrig
        exact ⟨first, rest, hload, by simpa using htrig⟩
  obtain ⟨first, rest, hload, htrig⟩ := key
  refine ⟨first, rest, hload, htrig, ?_⟩
  unfold Store.CreateSmartReview
  rw [hload]
  simp only [htrig, ne_eq, not_true_eq_false, if_false]
  split
  · rfl
  · split <;> rfl

theorem firstAIReview_error (s : Store) (env : Env) (productID : Nat) (err : DBError)
    (hlook : env.firstReviewErr = none) (h : s.firstAIReview env productID = .error err) :
    err = DBError.ErrRecordNotFound := by
  unfold Store.firstAIReview at h
  rw [hlook] at h
  simp only at h
  split at h
  · simp at h
  · simp at h
    exact h.symm

/-- A run that fired, got its summary and returned nil with the lookup answered either inserted
the first synthesized review of the product id or replaced the content of the stored one. -/
theorem CreateSmartReview_wrote (s : Store) (env : Env) (externalID : String)
    (first : Review) (rest : List Review) (text : String) (hk : s.ReviewKeys)
    (hload : s.GetReviewsByProductExternalID env externalID = .ok (first :: rest))
    (htrig : ((first :: rest).length + 1) % 3 = 0)
    (hgen : env.Generate (summaryPrompt (first :: rest)) = .ok text)
    (hlook : env.firstReviewErr = none)
    (hok : (s.CreateSmartReview env externalID).result = .ok) :
    (s.summaryCount first.ProductID = 0 ∧
      (s.CreateSmartReview env externalID).store =
        { s with
          reviews := s.reviews ++
            [{ ID := s.nextReviewID, CreatedAt := env.now, ProductID := first.ProductID,
               Author := aiLabel, Title := aiLabel, Content := text, Rating := 0,
               IAGenerated := true }]
          nextReviewID := s.nextReviewID + 1 }) ∨
    (∃ found ∈ s.reviews, found.ProductID = first.ProductID ∧ found.IAGenerated = true ∧
      s.firstAIReview env first.ProductID = .ok found ∧
      (s.CreateSmartReview env externalID).store =
        { s with reviews :=
            s.reviews.map (fun x => if x.ID = found.ID then { found with Content := text } else x) }) := by
  rw [CreateSmartReview_fired s env externalID first rest text hload htrig hgen] at hok ⊢
  cases hfa : s.firstAIReview env first.ProductID with
  | error err =>
    have herr := firstAIReview_error s env _ err hlook hfa
    subst herr
    rw [hfa] at hok
    simp only [if_true] at hok ⊢
    rcases saveReview_cases s env
      { ID := 0, CreatedAt := 0, ProductID := first.ProductID, Author := aiLabel,
        Title := aiLabel, Content := text, Rating := 0, IAGenerated := true }
      with ⟨msg, h⟩ | ⟨_, _, h⟩ | ⟨_, h0, _⟩ | ⟨_, h0, _⟩
    · rw [h] at hok; simp at hok
    · rw [h]
      left
      refine ⟨(firstAIReview_notFound s env _ hfa).1, ?_⟩
      simp [Store.appendReview]
    · exact absurd rfl h0
    · exact absurd rfl h0
  | ok found =>
    obtain ⟨hmem, hpid, hai, _⟩ := firstAIReview_ok s env _ found hfa
    have hpos := (hk.2.1 found hmem).1
    rw [hfa] at hok
    simp only at hok ⊢
    rcases saveReview_cases s env { found with Content := text }
      with ⟨msg, h⟩ | ⟨_, h0, _⟩ | ⟨_, _, _, h⟩ | ⟨_, _, hno, _⟩
    · rw [h] at hok; simp at hok
    · simp at h0; omega
    · rw [h]
      right
      exact ⟨found, hmem, hpid, hai, rfl, rfl⟩
    · exact absurd rfl (hno found hmem)

theorem eq_of_mem_of_length_le_one {α : Type} (l : List α) (h : l.length ≤ 1) {a b : α}
    (ha : a ∈ l) (hb : b ∈ l) : a = b := by
  match l, h with
  | [], _ => simp at ha
  | [x], _ =>
    simp only [List.mem_singleton] at ha hb
    rw [ha, hb]
  | _ :: _ :: _, h => simp at h

theorem mem_summary_filter (s : Store) (pid : Nat) (a : Review) (hmem : a ∈ s.reviews)
    (hpid : a.ProductID = pid) (hai : a.IAGenerated = true) :
    a ∈ s.reviews.filter (fun r => r.ProductID = pid ∧ r.IAGenerated = true) := by
  rw [List.mem_filter]
  exact ⟨hmem, by simp [hpid, hai]⟩

theorem not_mem_of_summaryCount_zero (s : Store) (pid : Nat) (h0 : s.summaryCount pid = 0)
    (a : Review) (hmem : a ∈ s.reviews) (hpid : a.ProductID = pid) (hai : a.IAGenerated = true) :
    False := by
  have := mem_summary_filter s pid a hmem hpid hai
  unfold Store.summaryCount at h0
  rw [List.length_eq_zero] at h0
  rw [h0] at this
  simp at this

theorem humanReviews_map (l : List Review) (g : Review → Review)
    (hg : ∀ x ∈ l, (g x).IAGenerated = x.IAGenerated ∧ (x.IAGenerated = false → g x = x)) :
    humanReviews (l.map g) = humanReviews l := by
  induction l with
  | nil => rfl
  | cons x xs ih =>
    have hx := hg x (by simp)
    have ih' := ih (fun y hy => hg y (by simp [hy]))
    unfold humanReviews at ih' ⊢
    cases hai : x.IAGenerated with
    | false =>
      have h1 := hx.2 hai
      simp only [List.map_cons, List.filter_cons, h1, hai, Bool.not_false, if_true, ih']
    | true =>
      have h1 := hx.1
      rw [hai] at h1
      simp only [List.map_cons, List.filter_cons, h1, hai, Bool.not_true, Bool.false_eq_true,
        if_false, ih']

/-- On a trigger boundary of the summary the loaded rows are stored reviews of the product. -/
theorem first_ProductID (s : Store) (env : Env) (p : Product) (first : Review)
    (rest : List Review) (hpk : s.ProductKeys) (hp : p ∈ s.products)
    (hload : s.GetReviewsByProductExternalID env p.ExternalID = .ok (first :: rest))
    (htrig : ((first :: rest).length + 1) % 3 = 0) : first.ProductID = p.ID := by
  obtain ⟨hl, _⟩ := GetReviews_ok s env _ _ hload
  by_cases hnil : s.reviews.filter (fun r => r.ProductID = p.ID) = []
  · rw [scanReviews_of_no_reviews s hpk p hp hnil] at hl
    rw [hl] at htrig
    simp at htrig
  · rw [scanReviews_of_reviews s hpk p hp hnil] at hl
    have hmem : first ∈ (s.reviews.filter (fun r => r.ProductID = p.ID)).filter
        (fun r => r.IAGenerated) ++ humanReviews (s.reviews.filter (fun r => r.ProductID = p.ID)) := by
      rw [← hl]; simp
    unfold humanReviews at hmem
    rw [List.mem_append] at hmem
    rcases hmem with h | h
    · have := (List.mem_filter.mp (List.mem_filter.mp h).1).2
      simpa using this
    · have := (List.mem_filter.mp (List.mem_filter.mp h).1).2
      simpa using this

/-- C9. Summary upsert postcondition: when the summary trigger fires, the completion service
answers `text`, the lookup of the synthesized review is answered and `CreateSmartReview` returns
nil, the synthesized review of the product has content `text`; if none was stored, the list of
reviews grows by one record with the reserved author and title, rating 0, `IAGenerated = true`
and the product id of the loaded reviews; if one was stored, the list is the old one with the
content of that record replaced; the human reviews and the products (so their keywords) are
unchanged. -/
theorem C9_summary_upsert_postcondition (s : Store) (env : Env) (externalID : String)
    (first : Review) (rest : List Review) (text : String) (hk : s.ReviewKeys)
    (hone : s.summaryCount first.ProductID ≤ 1)
    (hload : s.GetReviewsByProductExternalID env externalID = .ok (first :: rest))
    (htrig : ((first :: rest).length + 1) % 3 = 0)
    (hgen : env.Generate (summaryPrompt (first :: rest)) = .ok text)
    (hlook : env.firstReviewErr = none)
    (hok : (s.CreateSmartReview env externalID).result = .ok) :
    (∃ a ∈ (s.CreateSmartReview env externalID).store.reviews,
      a.ProductID = first.ProductID ∧ a.IAGenerated = true ∧ a.Content = text) ∧
    (∀ a ∈ (s.CreateSmartReview env externalID).store.reviews,
      a.ProductID = first.ProductID → a.IAGenerated = true → a.Content = text) ∧
    (s.summaryCount first.ProductID = 0 →
      (s.CreateSmartReview env externalID).store.reviews =
        s.reviews ++
          [{ ID := s.nextReviewID, CreatedAt := env.now, ProductID := first.ProductID,
             Author := aiLabel, Title := aiLabel, Content := text, Rating := 0,
             IAGenerated := true }]) ∧
    (∀ found ∈ s.reviews, found.ProductID = first.ProductID → found.IAGenerated = true →
      (s.CreateSmartReview env externalID).store.reviews =
        s.reviews.map (fun x => if x = found then { found with Content := text } else x)) ∧
    humanReviews (s.CreateSmartReview env externalID).store.reviews = humanReviews s.reviews ∧
    (s.CreateSmartReview env externalID).store.products = s.products ∧
    (∀ p ∈ s.products, s.ProductKeys → p.ExternalID = externalID → first.ProductID = p.ID) := by
  have hlast : ∀ p ∈ s.products, s.ProductKeys → p.ExternalID = externalID →
      first.ProductID = p.ID := by
    intro p hp hpk hext
    subst hext
    exact first_ProductID s env p first rest hpk hp hload htrig
  rcases CreateSmartReview_wrote s env externalID first rest text hk hload htrig hgen hlook hok
    with ⟨h0, hst⟩ | ⟨found, hmem, hpid, hai, _, hst⟩
  · rw [hst]
    refine ⟨?_, ?_, ?_, ?_, ?_, rfl, hlast⟩
    · exact ⟨_, List.mem_append_right _ (List.mem_singleton.mpr rfl), rfl, rfl, rfl⟩
    · intro a ha hapid haai
      simp only [List.mem_append, List.mem_singleton] at ha
      rcases ha with ha | rfl
      · exact (not_mem_of_summaryCount_zero s _ h0 a ha hapid haai).elim
      · rfl
    · intro _; rfl
    · intro f hf hfpid hfai
      exact (not_mem_of_summaryCount_zero s _ h0 f hf hfpid hfai).elim
    · simp [humanReviews, List.filter_append]
  · rw [hst]
    have huniq : ∀ x ∈ s.reviews, x.ProductID = first.ProductID → x.IAGenerated = true →
        x = found := by
      intro x hx hxpid hxai
      exact eq_of_mem_of_length_le_one _ hone (mem_summary_filter s _ x hx hxpid hxai)
        (mem_summary_filter s _ found hmem hpid hai)
    refine ⟨?_, ?_, ?_, ?_, ?_, rfl, hlast⟩
    · refine ⟨{ found with Content := text }, ?_, hpid, hai, rfl⟩
      simp only [List.mem_map]
      exact ⟨found, hmem, by simp⟩
    · intro a ha hapid haai
      simp only [List.mem_map] at ha
      obtain ⟨x, hx, rfl⟩ := ha
      by_cases hxid : x.ID = found.ID
      · simp [hxid]
      · simp only [hxid, if_false] at hapid haai ⊢
        exact absurd (congrArg Review.ID (huniq x hx hapid haai)) hxid
    · intro h0
      exact (not_mem_of_summaryCount_zero s _ h0 found hmem hpid hai).elim
    · intro f hf hfpid hfai
      have hff := huniq f hf hfpid hfai
      subst hff
      simp only
      apply List.map_congr_left
      intro x hx
      by_cases hxid : x.ID = f.ID
      · have : x = f := eq_of_mem_of_key_eq Review.ID s.reviews hk.1 hx hf hxid
        simp [this]
      · have : x ≠ f := fun h => hxid (by rw [h])
        simp [hxid, this]
    · simp only
      apply humanReviews_map
      intro x hx
      by_cases hxid : x.ID = found.ID
      · have : x = found := eq_of_mem_of_key_eq Review.ID s.reviews hk.1 hx hmem hxid
        subst this
        simp [hai]
      · simp [hxid]

theorem CreateSmartReview_generated (s : Store) (env : Env) (externalID : String)
    (first : Review) (rest : List Review)
    (hload : s.GetReviewsByProductExternalID env externalID = .ok (first :: rest))
    (htrig : ((first :: rest).length + 1) % 3 = 0)
    (hok : (s.CreateSmartReview env externalID).result = .ok) :
    ∃ text, env.Generate (summaryPrompt (first :: rest)) = .ok text := by
  cases hg : env.Generate (summaryPrompt (first :: rest)) with
  | ok text => exact ⟨text, rfl⟩
  | error e =>
    unfold Store.CreateSmartReview at hok
    rw [hload] at hok
    simp only [htrig, ne_eq, not_true_eq_false, if_false] at hok
    rw [hg] at hok
    simp at hok

/-- Every stored review is still stored afterwards under its id, with its product and its
flag. -/
theorem CreateSmartReview_keeps (s : Store) (env : Env) (externalID : String)
    (hk : s.ReviewKeys) (a : Review) (ha : a ∈ s.reviews) :
    ∃ b ∈ (s.CreateSmartReview env externalID).store.reviews,
      b.ID = a.ID ∧ b.ProductID = a.ProductID ∧ b.IAGenerated = a.IAGenerated := by
  rcases CreateSmartReview_effect s env externalID hk with h | ⟨n, h0, _, h⟩ | ⟨found, hm, c, _, h⟩
  · rw [h]; exact ⟨a, ha, rfl, rfl, rfl⟩
  · rw [h, appendReview_fresh s env.now n h0]
    exact ⟨a, List.mem_append_left _ ha, rfl, rfl, rfl⟩
  · rw [h]
    by_cases hid : a.ID = found.ID
    · have : a = found := eq_of_mem_of_key_eq Review.ID s.reviews hk.1 ha hm hid
      subst this
      refine ⟨{ a with Content := c }, ?_, rfl, rfl, rfl⟩
      simp only [List.mem_map]
      exact ⟨a, ha, by simp⟩
    · refine ⟨a, ?_, rfl, rfl, rfl⟩
      simp only [List.mem_map]
      exact ⟨a, ha, by simp [hid]⟩

/-- After a run that fired and wrote, the product id of the loaded reviews has a synthesized
review. -/
theorem CreateSmartReview_summaryCount_pos (s : Store) (env : Env) (externalID : String)
    (first : Review) (rest : List Review) (text : String) (hk : s.ReviewKeys)
    (hload : s.GetReviewsByProductExternalID env externalID = .ok (first :: rest))
    (htrig : ((first :: rest).length + 1) % 3 = 0)
    (hgen : env.Generate (summaryPrompt (first :: rest)) = .ok text)
    (hlook : env.firstReviewErr = none)
    (hok : (s.CreateSmartReview env externalID).result = .ok) :
    1 ≤ (s.CreateSmartReview env externalID).store.summaryCount first.ProductID := by
  rcases CreateSmartReview_wrote s env externalID first rest text hk hload htrig hgen hlook hok
    with ⟨_, hst⟩ | ⟨found, hmem, hpid, hai, _, hst⟩
  · rw [hst]
    simp [Store.summaryCount, List.filter_append]
  · rw [hst, summaryCount_replace s found text hk hmem]
    have := mem_summary_filter s _ found hmem hpid hai
    unfold Store.summaryCount
    exact List.length_pos_of_mem this

/-- C2. At most one synthesized review per product: when review ids are a primary key and every
product id has at most one review with `IAGenerated = true`, the same holds after
`CreateSmartReview`, whatever the completion service and the database accesses do. When the
first call fired and wrote the summary (it called the completion service, returned nil, and its
lookup was answered), a second call in a row leaves exactly one synthesized review for the
product id of the loaded reviews (the id of the product with that external id when the products
table has its keys), and a synthesized review stored before is still stored under its id. -/
theorem C2_at_most_one_summary (s : Store) (env env' : Env) (externalID : String)
    (hk : s.ReviewKeys) (hinv : s.AtMostOneSummary) :
    (s.CreateSmartReview env externalID).store.AtMostOneSummary ∧
    ((s.CreateSmartReview env externalID).store.CreateSmartReview env' externalID).store.AtMostOneSummary ∧
    ((s.CreateSmartReview env externalID).calls ≠ [] →
      (s.CreateSmartReview env externalID).result = .ok → env.firstReviewErr = none →
      ∃ first rest, s.GetReviewsByProductExternalID env externalID = .ok (first :: rest) ∧
        (∀ p ∈ s.products, s.ProductKeys → p.ExternalID = externalID → first.ProductID = p.ID) ∧
        ((s.CreateSmartReview env externalID).store.CreateSmartReview env' externalID).store.summaryCount
          first.ProductID = 1 ∧
        ∀ a ∈ s.reviews, a.ProductID = first.ProductID → a.IAGenerated = true →
          ∃ b ∈ ((s.CreateSmartReview env externalID).store.CreateSmartReview env'
              externalID).store.reviews,
            b.ID = a.ID ∧ b.ProductID = a.ProductID ∧ b.IAGenerated = true) := by
  have hk1 := CreateSmartReview_ReviewKeys s env externalID hk
  have h1 : (s.CreateSmartReview env externalID).store.AtMostOneSummary :=
    fun pid => CreateSmartReview_summaryCount_le_one s env externalID hk pid (hinv pid)
  have h2 : ((s.CreateSmartReview env externalID).store.CreateSmartReview env'
      externalID).store.AtMostOneSummary :=
    fun pid => CreateSmartReview_summaryCount_le_one _ env' externalID hk1 pid (h1 pid)
  refine ⟨h1, h2, ?_⟩
  intro hcalls hok hlook
  obtain ⟨first, rest, hload, htrig, _⟩ := CreateSmartReview_calls s env externalID hcalls
  obtain ⟨text, hgen⟩ := CreateSmartReview_generated s env externalID first rest hload htrig hok
  refine ⟨first, rest, hload, ?_, ?_, ?_⟩
  · intro p hp hpk hext
    subst hext
    exact first_ProductID s env p first rest hpk hp hload htrig
  · have hpost := CreateSmartReview_summaryCount_pos s env externalID first rest text hk hload htrig hgen hlook hok
    have hmono := CreateSmartReview_summaryCount_mono _ env' externalID hk1 first.ProductID
    have hle := h2 first.ProductID
    omega
  · intro a ha hpid hai
    obtain ⟨b, hb, hbid, hbpid, hbai⟩ := CreateSmartReview_keeps s env externalID hk a ha
    obtain ⟨c, hc, hcid, hcpid, hcai⟩ := CreateSmartReview_keeps _ env' externalID hk1 b hb
    exact ⟨c, hc, by rw [hcid, hbid], by rw [hcpid, hbpid], by rw [hcai, hbai, hai]⟩

/-- It is enough to check the product ids that occur in the reviews table. -/
theorem atMostOneSummary_of_forall_mem (s : Store)
    (h : ∀ r ∈ s.reviews, s.summaryCount r.ProductID ≤ 1) : s.AtMostOneSummary := by
  intro pid
  by_cases hz : s.summaryCount pid = 0
  · omega
  · unfold Store.summaryCount at hz
    obtain ⟨r, hr⟩ := List.exists_mem_of_length_pos (Nat.pos_of_ne_zero hz)
    rw [List.mem_filter] at hr
    have hpid : r.ProductID = pid := by
      have := hr.2
      simp at this
      exact this.1
    rw [← hpid]
    exact h r hr.1

/-- The invariant and the twice-in-a-row statement on a product that already has a summary. -/
theorem C2_at_most_one_summary_witness :
    storeWithSummary.ReviewKeys ∧ storeWithSummary.AtMostOneSummary ∧
    (storeWithSummary.CreateSmartReview (Env.answering "sum") "x").store.AtMostOneSummary ∧
    ∃ first rest,
      storeWithSummary.GetReviewsByProductExternalID (Env.answering "sum") "x"
        = .ok (first :: rest) ∧
      (∀ p ∈ storeWithSummary.products, storeWithSummary.ProductKeys → p.ExternalID = "x" →
        first.ProductID = p.ID) ∧
      ((storeWithSummary.CreateSmartReview (Env.answering "sum") "x").store.CreateSmartReview
        (Env.answering "new") "x").store.summaryCount first.ProductID = 1 ∧
      ∀ a ∈ storeWithSummary.reviews, a.ProductID = first.ProductID → a.IAGenerated = true →
        ∃ b ∈ ((storeWithSummary.CreateSmartReview (Env.answering "sum") "x").store.CreateSmartReview
            (Env.answering "new") "x").store.reviews,
          b.ID = a.ID ∧ b.ProductID = a.ProductID ∧ b.IAGenerated = true :=
  ⟨by decide, atMostOneSummary_of_forall_mem _ (by decide),
    (C2_at_most_one_summary storeWithSummary (Env.answering "sum") (Env.answering "new") "x"
      (by decide) (atMostOneSummary_of_forall_mem _ (by decide))).1,
    (C2_at_most_one_summary storeWithSummary (Env.answering "sum") (Env.answering "new") "x"
      (by decide) (atMostOneSummary_of_forall_mem _ (by decide))).2.2
      (by decide) (by decide) rfl⟩

/-- The postcondition on a product whose stored summary is replaced. -/
theorem C9_summary_upsert_postcondition_witness :
    storeWithSummary.ReviewKeys ∧
    storeWithSummary.summaryCount 1 ≤ 1 ∧
    storeWithSummary.GetReviewsByProductExternalID (Env.answering "sum") "x"
      = .ok [exampleSummary 2 1 "stale", exampleReview 1 1 "good"] ∧
    (∃ a ∈ (storeWithSummary.CreateSmartReview (Env.answering "sum") "x").store.reviews,
      a.ProductID = 1 ∧ a.IAGenerated = true ∧ a.Content = "sum") ∧
    humanReviews (storeWithSummary.CreateSmartReview (Env.answering "sum") "x").store.reviews
      = humanReviews storeWithSummary.reviews :=
  ⟨by decide, by decide, rfl,
    (C9_summary_upsert_postcondition storeWithSummary (Env.answering "sum") "x"
      (exampleSummary 2 1 "stale") [exampleReview 1 1 "good"] "sum"
      (by decide) (by decide) rfl (by decide) rfl rfl (by decide)).1,
    (C9_summary_upsert_postcondition storeWithSummary (Env.answering "sum") "x"
      (exampleSummary 2 1 "stale") [exampleReview 1 1 "good"] "sum"
      (by decide) (by decide) rfl (by decide) rfl rfl (by decide)).2.2.2.2.1⟩

/-! ## `CreateReviewsKeywords` -/

theorem GetProductByExternalID_ok (s : Store) (env : Env) (externalID : String) (p : Product)
    (h : s.GetProductByExternalID env externalID = .ok p) :
    p ∈ s.products ∧ p.ExternalID = externalID := by
  unfold Store.GetProductByExternalID Store.firstProduct at h
  cases hf : env.getProductErr with
  | some msg => rw [hf] at h; simp at h
  | none =>
    rw [hf] at h
    simp only at h
    cases hfb : firstBy Product.ID (s.products.filter (fun p => p.ExternalID = externalID)) with
    | none => rw [hfb] at h; simp at h
    | some q =>
      rw [hfb] at h
      simp only [Except.ok.injEq] at h
      subst h
      have hmem := firstBy_mem _ _ _ hfb
      rw [List.mem_filter] at hmem
      exact ⟨hmem.1, by simpa using hmem.2⟩

theorem saveProduct_of_mem (s : Store) (env : Env) (hpk : s.ProductKeys) (p q : Product)
    (hp : p ∈ s.products) (hq : q.ID = p.ID) :
    (∃ msg, s.saveProduct env q = .error (.other msg)) ∨
    s.saveProduct env q =
      .ok { s with products := s.products.map (fun x => if x.ID = p.ID then q else x) } := by
  unfold Store.saveProduct
  cases hf : env.saveProductErr with
  | some msg => left; exact ⟨msg, rfl⟩
  | none =>
    right
    have hpos := (hpk.2.1 p hp).1
    have h0 : q.ID ≠ 0 := by omega
    have hany : (s.products.any fun x => decide (x.ID = q.ID)) = true := by
      rw [List.any_eq_true]
      exact ⟨p, hp, by simp [hq]⟩
    rw [hq] at h0 hany
    have hex : ∃ x ∈ s.products, x.ID = p.ID := ⟨p, hp, rfl⟩
    simp [h0, hq, hex]

/-- A run of `CreateReviewsKeywords` that called the completion service loaded a non-empty list
on a trigger boundary and sent exactly the keywords prompt of that list. -/
theorem CreateReviewsKeywords_calls (s : Store) (env : Env) (externalID : String)
    (h : (s.CreateReviewsKeywords env externalID).calls ≠ []) :
    ∃ first rest, s.GetReviewsByProductExternalID env externalID = .ok (first :: rest) ∧
      ((first :: rest).length + 1) % 2 = 0 ∧
      (s.CreateReviewsKeywords env externalID).calls = [keywordsPrompt (first :: rest)] := by
  have key : ∃ first rest, s.GetReviewsByProductExternalID env externalID = .ok (first :: rest) ∧
      ((first :: rest).length + 1) % 2 = 0 := by
    unfold Store.CreateReviewsKeywords at h
    split at h
    · exact absurd rfl h
    · exact absurd rfl h
    · rename_i first rest hload
      split at h
      · exact absurd rfl h
      · rename_i htrig
        exact ⟨first, rest, hload, by simpa using htrig⟩
  obtain ⟨first, rest, hload, htrig⟩ := key
  refine ⟨first, rest, hload, htrig, ?_⟩
  unfold Store.CreateReviewsKeywords
  rw [hload]
  simp only [htrig, ne_eq, not_true_eq_false, if_false]
  split
  · rfl
  · split
    · rfl
    · split <;> rfl

/-- The run of `CreateReviewsKeywords` once the trigger has fired and the completion service has
answered. -/
theorem CreateReviewsKeywords_fired (s : Store) (env : Env) (externalID : String)
    (first : Review) (rest : List Review) (keywords : String)
    (hload : s.GetReviewsByProductExternalID env externalID = .ok (first :: rest))
    (htrig : ((first :: rest).length + 1) % 2 = 0)
    (hgen : env.Generate (keywordsPrompt (first :: rest)) = .ok keywords) :
    s.CreateReviewsKeywords env externalID =
      match s.GetProductByExternalID env externalID with
      | .error err =>
        { store := s, calls := [keywordsPrompt (first :: rest)], result := .error err }
      | .ok product =>
        match s.saveProduct env { product with Keywords := keywords } with
        | .error err =>
          { store := s, calls := [keywordsPrompt (first :: rest)],
            result := .error ("failed to create review: " ++ err.Error) }
        | .ok s' => { store := s', calls := [keywordsPrompt (first :: rest)], result := .ok } := by
  unfold Store.CreateReviewsKeywords
  rw [hload]
  simp only [htrig, ne_eq, not_true_eq_false, if_false]
  rw [hgen]

/-- C8. Keyword overwrite: when `CreateReviewsKeywords` fires (it calls the completion service),
the service answers `k` and the operation returns nil, the product with the external id has
`Keywords = k` verbatim and its other fields as before, every other product is as before, and the
reviews table and the counters are unchanged. -/
theorem C8_keywords_overwrite (s : Store) (env : Env) (externalID k : String)
    (hpk : s.ProductKeys)
    (hfire : (s.CreateReviewsKeywords env externalID).calls ≠ [])
    (hgen : env.Generate (keywordsPrompt (s.scanReviews externalID)) = .ok k)
    (hok : (s.CreateReviewsKeywords env externalID).result = .ok) :
    (s.CreateReviewsKeywords env externalID).store.products =
      s.products.map (fun q => if q.ExternalID = externalID then { q with Keywords := k } else q) ∧
    (∃ q ∈ s.products, q.ExternalID = externalID) ∧
    (s.CreateReviewsKeywords env externalID).store.reviews = s.reviews ∧
    (s.CreateReviewsKeywords env externalID).store.nextReviewID = s.nextReviewID ∧
    (s.CreateReviewsKeywords env externalID).store.nextProductID = s.nextProductID := by
  obtain ⟨first, rest, hload, htrig, _⟩ := CreateReviewsKeywords_calls s env externalID hfire
  obtain ⟨hl, _⟩ := GetReviews_ok s env _ _ hload
  rw [← hl] at hgen
  rw [CreateReviewsKeywords_fired s env externalID first rest k hload htrig hgen] at hok ⊢
  cases hgp : s.GetProductByExternalID env externalID with
  | error err => rw [hgp] at hok; simp at hok
  | ok p =>
    obtain ⟨hp, hext⟩ := GetProductByExternalID_ok s env externalID p hgp
    rw [hgp] at hok
    simp only at hok ⊢
    rcases saveProduct_of_mem s env hpk p { p with Keywords := k } hp rfl with ⟨msg, h⟩ | h
    · rw [h] at hok; simp at hok
    · rw [h]
      refine ⟨?_, ⟨p, hp, hext⟩, rfl, rfl, rfl⟩
      simp only
      apply List.map_congr_left
      intro x hx
      by_cases hid : x.ID = p.ID
      · have hxp : x = p := eq_of_mem_of_key_eq Product.ID s.products hpk.1 hx hp hid
        subst hxp
        simp [hext]
      · have hne : x.ExternalID ≠ externalID := by
          intro hxe
          apply hid
          have : x = p :=
            eq_of_mem_of_key_eq Product.ExternalID s.products hpk.2.2.1 hx hp (by rw [hxe, hext])
          rw [this]
        simp [hid, hne]

/-- The overwrite on a product with one review and keywords `old`. -/
theorem C8_keywords_overwrite_witness :
    storeOneHuman.ProductKeys ∧
    (storeOneHuman.CreateReviewsKeywords (Env.answering "fast,cheap") "x").calls ≠ [] ∧
    (storeOneHuman.CreateReviewsKeywords (Env.answering "fast,cheap") "x").result = .ok ∧
    (storeOneHuman.CreateReviewsKeywords (Env.answering "fast,cheap") "x").store.products =
      storeOneHuman.products.map
        (fun q => if q.ExternalID = "x" then { q with Keywords := "fast,cheap" } else q) :=
  ⟨by decide, by decide, by decide,
    (C8_keywords_overwrite storeOneHuman (Env.answering "fast,cheap") "x" "fast,cheap"
      (by decide) (by decide) rfl (by decide)).1⟩

/-! ## Prompts sent and response mapping -/

/-- C10. Response mapping: the reviews of the response are the human reviews of the product in
order, with author, title, content and rating copied (so there are as many as human reviews, and
none of them comes from a synthesized review), and the summary of the response is the content of
the last synthesized review, the empty string when there is none. -/
theorem C10_parseResponse (timeString : Nat → String) (p : Product) :
    (parseResponse timeString p).Reviews
      = (humanReviews p.Reviews).map (toReviewResponse timeString) ∧
    (parseResponse timeString p).Reviews.map
        (fun x => (x.Author, x.Title, x.Content, x.Rating))
      = (p.Reviews.filter (fun r => r.IAGenerated = false)).map
        (fun r => (r.Author, r.Title, r.Content, r.Rating)) ∧
    (parseResponse timeString p).Reviews.length
      = p.Reviews.countP (fun r => r.IAGenerated = false) ∧
    (parseResponse timeString p).AISummary = lastSummary p.Reviews := by
  have h := parseResponse_foldl timeString p.Reviews ([], "")
  have hrev : (parseResponse timeString p).Reviews
      = (humanReviews p.Reviews).map (toReviewResponse timeString) := by
    unfold parseResponse
    simp only [h, List.nil_append]
  have hfil : p.Reviews.filter (fun r => decide (r.IAGenerated = false)) = humanReviews p.Reviews := by
    unfold humanReviews
    apply List.filter_congr
    intro x _
    cases x.IAGenerated <;> rfl
  refine ⟨hrev, ?_, ?_, ?_⟩
  · rw [hrev, hfil, List.map_map]
    rfl
  · rw [hrev, List.length_map, List.countP_eq_length_filter, hfil]
  · unfold parseResponse lastSummary
    simp only [h]

/-! ## The submission handler -/

theorem failed_ne_notFound (msg : String) :
    "failed to get product: " ++ msg ≠ "product not found: record not found" := by
  intro h
  have h' := congrArg (fun x : String => x.data.head?) h
  simp only [String.data_append] at h'
  simp at h'

theorem GetProductByExternalID_error (s : Store) (env : Env) (externalID err : String)
    (h : s.GetProductByExternalID env externalID = .error err) :
    (err = "product not found: record not found" ∧ env.getProductErr = none ∧
      s.products.filter (fun p => p.ExternalID = externalID) = []) ∨
    (∃ msg, env.getProductErr = some msg ∧ err = "failed to get product: " ++ msg) := by
  unfold Store.GetProductByExternalID Store.firstProduct at h
  cases hf : env.getProductErr with
  | some msg =>
    rw [hf] at h
    simp at h
    exact Or.inr ⟨msg, rfl, h.symm⟩
  | none =>
    rw [hf] at h
    simp only at h
    cases hfb : firstBy Product.ID (s.products.filter (fun p => p.ExternalID = externalID)) with
    | none =>
      rw [hfb] at h
      simp at h
      rw [firstBy_eq_none] at hfb
      refine Or.inl ⟨?_, rfl, hfb⟩
      rw [← h]
      decide
    | some q => rw [hfb] at h; simp at h
theorem scanReviews_ne_nil_products (s : Store) (externalID : String)
    (h : s.scanReviews externalID ≠ []) :
    s.products.filter (fun p => p.ExternalID = externalID) ≠ [] :=
  fun hnil => h (scanReviews_of_no_product s externalID hnil)

/-- The run of `CreateSmartReview` when the trigger fires and the completion service fails. -/
theorem CreateSmartReview_panics (s : Store) (env : Env) (externalID e : String)
    (hfire : ((s.scanReviews externalID).length + 1) % 3 = 0)
    (hfail : env.Generate (summaryPrompt (s.scanReviews externalID)) = .error e)
    (hf : env.getReviewsErr = none) :
    s.CreateSmartReview env externalID =
      { store := s, calls := [summaryPrompt (s.scanReviews externalID)], result := .panicked e } := by
  unfold Store.CreateSmartReview
  rw [GetReviews_of_noFault s env externalID hf]
  cases hl : s.scanReviews externalID with
  | nil => rw [hl] at hfire; simp at hfire
  | cons first rest =>
    rw [hl] at hfire hfail
    simp only [hfire, ne_eq, not_true_eq_false, if_false]
    rw [hfail]

/-- A failing load of the reviews makes `CreateSmartReview` return the error untouched. -/
theorem CreateSmartReview_load_error (s : Store) (env : Env) (externalID msg : String)
    (hf : env.getReviewsErr = some msg) :
    s.CreateSmartReview env externalID =
      { store := s, calls := [], result := .error ("failed to get reviews: " ++ msg) } := by
  simp [Store.CreateSmartReview, Store.GetReviewsByProductExternalID, Store.queryReviews, hf,
    DBError.Error]

/-- C6. Atomicity on generation failure: when the summary trigger fires on the stored reviews and
the completion service fails, the submission does not succeed (the handler answers 500 before
reaching the synthesis, or the panic of `CreateSmartReview` unwinds it), the database is exactly
as before, and the only prompt possibly sent is the summary prompt: `CreateReviewsKeywords` and
`CreateReview` are not run. With the product lookup and the load answered, the handler ends in
the panic after exactly one call. -/
theorem C6_generation_failure_aborts_submission (s : Store) (envH envS envK : Env)
    (externalID e : String) (input : ProductInput)
    (hfire : ((s.scanReviews externalID).length + 1) % 3 = 0)
    (hfail : envS.Generate (summaryPrompt (s.scanReviews externalID)) = .error e) :
    (postReview s envH envS envK externalID (.ok input)).store = s ∧
    ((∃ msg, (postReview s envH envS envK externalID (.ok input)).response = .json 500 msg) ∨
      (postReview s envH envS envK externalID (.ok input)).response = .panicked e) ∧
    (postReview s envH envS envK externalID (.ok input)).response ≠ .json 201 "Review created" ∧
    ((postReview s envH envS envK externalID (.ok input)).calls = [] ∨
      (postReview s envH envS envK externalID (.ok input)).calls
        = [summaryPrompt (s.scanReviews externalID)]) ∧
    (envH.getProductErr = none → envS.getReviewsErr = none →
      (postReview s envH envS envK externalID (.ok input)).response = .panicked e ∧
      (postReview s envH envS envK externalID (.ok input)).calls
        = [summaryPrompt (s.scanReviews externalID)]) := by
  have hne : s.scanReviews externalID ≠ [] := by
    intro h
    rw [h] at hfire
    simp at hfire
  have hprod := scanReviews_ne_nil_products s externalID hne
  unfold postReview
  simp only
  cases hgp : s.GetProductByExternalID envH externalID with
  | error err =>
    simp only
    rcases GetProductByExternalID_error s envH externalID err hgp with ⟨_, _, hnil⟩ | ⟨msg, hm, herr⟩
    · exact absurd hnil hprod
    · subst herr
      simp [failed_ne_notFound, hm]
  | ok product =>
    obtain ⟨_, hext⟩ := GetProductByExternalID_ok s envH externalID product hgp
    simp only [hext]
    cases hlf : envS.getReviewsErr with
    | some msg =>
      rw [CreateSmartReview_load_error s envS externalID msg hlf]
      simp
    | none =>
      rw [CreateSmartReview_panics s envS externalID e hfire hfail hlf]
      simp

/-- A failing completion service on the third submission: panic, database untouched. -/
theorem C6_generation_failure_aborts_submission_witness :
    ((storeTwoHuman.scanReviews "x").length + 1) % 3 = 0 ∧
    (postReview storeTwoHuman (Env.answering "") (Env.failing "overloaded") (Env.answering "")
      "x" (.ok exampleInput)).store = storeTwoHuman ∧
    (postReview storeTwoHuman (Env.answering "") (Env.failing "overloaded") (Env.answering "")
      "x" (.ok exampleInput)).response = .panicked "overloaded" :=
  ⟨by decide,
    (C6_generation_failure_aborts_submission storeTwoHuman (Env.answering "")
      (Env.failing "overloaded") (Env.answering "") "x" "overloaded" exampleInput
      (by decide) rfl).1,
    ((C6_generation_failure_aborts_submission storeTwoHuman (Env.answering "")
      (Env.failing "overloaded") (Env.answering "") "x" "overloaded" exampleInput
      (by decide) rfl).2.2.2.2 rfl rfl).1⟩

theorem keywords_products_map (s : Store) (hpk : s.ProductKeys) (p : Product)
    (hp : p ∈ s.products) (k : String) :
    s.products.map (fun x => if x.ID = p.ID then { p with Keywords := k } else x) =
      s.products.map
        (fun q => if q.ExternalID = p.ExternalID then { q with Keywords := k } else q) := by
  apply List.map_congr_left
  intro x hx
  by_cases hid : x.ID = p.ID
  · have hxp : x = p := eq_of_mem_of_key_eq Product.ID s.products hpk.1 hx hp hid
    subst hxp
    simp
  · have hne : x.ExternalID ≠ p.ExternalID := by
      intro hxe
      apply hid
      have : x = p := eq_of_mem_of_key_eq Product.ExternalID s.products hpk.2.2.1 hx hp hxe
      rw [this]
    simp [hid, hne]

/-- The run of `CreateSmartReview` on a product holding exactly two human reviews. -/
theorem CreateSmartReview_two_human (s : Store) (env : Env) (p : Product) (r₁ r₂ : Review)
    (summary : String) (hpk : s.ProductKeys) (hp : p ∈ s.products)
    (hrev : s.reviews.filter (fun r => r.ProductID = p.ID) = [r₁, r₂])
    (h₁ : r₁.IAGenerated = false) (h₂ : r₂.IAGenerated = false) (hf : env.NoFault)
    (hsum : env.Generate (summaryPrompt [r₁, r₂]) = .ok summary) :
    s.CreateSmartReview env p.ExternalID =
      { store :=
          { s with
            reviews := s.reviews ++
              [{ ID := s.nextReviewID, CreatedAt := env.now, ProductID := p.ID, Author := aiLabel,
                 Title := aiLabel, Content := summary, Rating := 0, IAGenerated := true }]
            nextReviewID := s.nextReviewID + 1 }
        calls := [summaryPrompt [r₁, r₂]]
        result := .ok } := by
  obtain ⟨_, hfl, hff, hfs, _, _, _⟩ := hf
  have hscan : s.scanReviews p.ExternalID = [r₁, r₂] := by
    rw [scanReviews_of_reviews s hpk p hp (by rw [hrev]; simp), hrev]
    simp [humanReviews, h₁, h₂]
  have hload : s.GetReviewsByProductExternalID env p.ExternalID = .ok [r₁, r₂] := by
    rw [GetReviews_of_noFault s env _ hfl, hscan]
  have hpid : r₁.ProductID = p.ID := by
    have : r₁ ∈ s.reviews.filter (fun r => r.ProductID = p.ID) := by rw [hrev]; simp
    simpa using (List.mem_filter.mp this).2
  have hnone : s.reviews.filter (fun r => r.ProductID = p.ID ∧ r.IAGenerated = true) = [] := by
    have : s.reviews.filter (fun r => r.ProductID = p.ID ∧ r.IAGenerated = true)
        = (s.reviews.filter (fun r => r.ProductID = p.ID)).filter (fun r => r.IAGenerated) := by
      rw [List.filter_filter]
      apply List.filter_congr
      intro x _
      by_cases hx : x.ProductID = p.ID <;> simp [hx]
    rw [this, hrev]
    simp [h₁, h₂]
  have hfa : s.firstAIReview env r₁.ProductID = .error .ErrRecordNotFound := by
    unfold Store.firstAIReview
    rw [hff, hpid, hnone]
    rfl
  rw [CreateSmartReview_fired s env p.ExternalID r₁ [r₂] summary hload (by simp) hsum, hfa]
  simp only [if_true]
  unfold Store.saveReview
  rw [hfs]
  simp only [if_true]
  rw [insertReview_ok s env.now _ (by rw [hpid]; exact hasProduct_of_mem s p hp) rfl]
  simp [Store.appendReview, hpid]

/-- The run of `CreateReviewsKeywords` on a product holding two human reviews and the
synthesized one. -/
theorem CreateReviewsKeywords_three (s : Store) (env : Env) (p : Product) (r₁ r₂ ai : Review)
    (keywords : String) (hpk : s.ProductKeys) (hp : p ∈ s.products)
    (hrev : s.reviews.filter (fun r => r.ProductID = p.ID) = [r₁, r₂, ai])
    (h₁ : r₁.IAGenerated = false) (h₂ : r₂.IAGenerated = false) (h₃ : ai.IAGenerated = true)
    (hf : env.NoFault)
    (hkey : env.Generate (keywordsPrompt [r₁, r₂]) = .ok keywords) :
    s.CreateReviewsKeywords env p.ExternalID =
      { store :=
          { s with
            products := s.products.map
              (fun q => if q.ExternalID = p.ExternalID then { q with Keywords := keywords } else q) }
        calls := [keywordsPrompt [r₁, r₂]]
        result := .ok } := by
  obtain ⟨hfp, hfl, _, _, hfs, _, _⟩ := hf
  have hscan : s.scanReviews p.ExternalID = [ai, r₁, r₂] := by
    rw [scanReviews_of_reviews s hpk p hp (by rw [hrev]; simp), hrev]
    simp [humanReviews, h₁, h₂, h₃]
  have hload : s.GetReviewsByProductExternalID env p.ExternalID = .ok [ai, r₁, r₂] := by
    rw [GetReviews_of_noFault s env _ hfl, hscan]
  have hprompt : keywordsPrompt [ai, r₁, r₂] = keywordsPrompt [r₁, r₂] := by
    simp [keywordsPrompt, keywordsContent, h₁, h₂, h₃]
  rw [← hprompt] at hkey ⊢
  rw [CreateReviewsKeywords_fired s env p.ExternalID ai [r₁, r₂] keywords hload (by simp) hkey,
    GetProductByExternalID_of_mem s env hpk p hp hfp]
  simp only
  rcases saveProduct_of_mem s env hpk p { p with Keywords := keywords } hp rfl with ⟨msg, h⟩ | h
  · unfold Store.saveProduct at h
    rw [hfs] at h
    simp only at h
    split at h
    · simp at h
    · split at h <;> simp at h
  · rw [h, keywords_products_map s hpk p hp keywords]

/-- C4 (corrected statement). Scenario A on the code: for a product that holds exactly two human reviews
and no synthesized one, with no database failure and a completion service that answers, the
handler of a third submission fires the summary and then, because `CreateReviewsKeywords`
counts the three reviews stored by then (the two human ones and the synthesized one just
inserted), fires the keywords too: the completion service is called exactly twice, with the
summary prompt and then the keywords prompt of the two human reviews, the product's keywords
become the second answer, and the synthesized review and the submitted review are appended. -/
theorem C4_third_review_fires_summary_and_keywords (s : Store) (envH envS envK : Env)
    (input : ProductInput) (p : Product) (r₁ r₂ : Review) (summary keywords : String)
    (hpk : s.ProductKeys) (hp : p ∈ s.products)
    (hrev : s.reviews.filter (fun r => r.ProductID = p.ID) = [r₁, r₂])
    (h₁ : r₁.IAGenerated = false) (h₂ : r₂.IAGenerated = false)
    (hH : envH.NoFault) (hS : envS.NoFault) (hK : envK.NoFault)
    (hsum : envS.Generate (summaryPrompt [r₁, r₂]) = .ok summary)
    (hkey : envK.Generate (keywordsPrompt [r₁, r₂]) = .ok keywords) :
    (postReview s envH envS envK p.ExternalID (.ok input)).calls
      = [summaryPrompt [r₁, r₂], keywordsPrompt [r₁, r₂]] ∧
    (postReview s envH envS envK p.ExternalID (.ok input)).response
      = .json 201 "Review created" ∧
    (postReview s envH envS envK p.ExternalID (.ok input)).store.products
      = s.products.map
          (fun q => if q.ExternalID = p.ExternalID then { q with Keywords := keywords } else q) ∧
    (postReview s envH envS envK p.ExternalID (.ok input)).store.reviews
      = s.reviews ++
          [{ ID := s.nextReviewID, CreatedAt := envS.now, ProductID := p.ID, Author := aiLabel,
             Title := aiLabel, Content := summary, Rating := 0, IAGenerated := true },
           { ID := s.nextReviewID + 1, CreatedAt := envH.now, ProductID := p.ID,
             Author := input.Review.Author, Title := input.Review.Title,
             Content := input.Review.Content, Rating := input.Review.Rating,
             IAGenerated := false }] := by
  have hstep1 := CreateSmartReview_two_human s envS p r₁ r₂ summary hpk hp hrev h₁ h₂ hS hsum
  have hpid : ∀ r ∈ s.reviews.filter (fun r => r.ProductID = p.ID), r.ProductID = p.ID := by
    intro r hr
    simpa using (List.mem_filter.mp hr).2
  have hstep2 := CreateReviewsKeywords_three
    { s with
      reviews := s.reviews ++
        [{ ID := s.nextReviewID, CreatedAt := envS.now, ProductID := p.ID, Author := aiLabel,
           Title := aiLabel, Content := summary, Rating := 0, IAGenerated := true }]
      nextReviewID := s.nextReviewID + 1 }
    envK p r₁ r₂
    { ID := s.nextReviewID, CreatedAt := envS.now, ProductID := p.ID, Author := aiLabel,
      Title := aiLabel, Content := summary, Rating := 0, IAGenerated := true }
    keywords hpk hp (by simp [List.filter_append, hrev]) h₁ h₂ rfl hK hkey
  unfold postReview
  simp only [GetProductByExternalID_of_mem s envH hpk p hp hH.1, hstep1, hstep2]
  have hhas : Store.hasProduct
      { products := s.products.map
          (fun q => if q.ExternalID = p.ExternalID then { q with Keywords := keywords } else q),
        reviews := s.reviews ++
          [{ ID := s.nextReviewID, CreatedAt := envS.now, ProductID := p.ID, Author := aiLabel,
             Title := aiLabel, Content := summary, Rating := 0, IAGenerated := true }],
        nextProductID := s.nextProductID, nextReviewID := s.nextReviewID + 1 } p.ID = true := by
    unfold Store.hasProduct
    rw [List.any_eq_true]
    refine ⟨{ p with Keywords := keywords }, ?_, by simp⟩
    rw [List.mem_map]
    exact ⟨p, hp, by simp⟩
  simp only [Store.CreateReview, hH.2.2.2.2.2.2]
  rw [insertReview_ok _ envH.now _ hhas rfl]
  simp [Store.appendReview, parseReviewInput]

/-- The third submission on the example product sends both prompts. -/
theorem C4_third_review_fires_summary_and_keywords_witness :
    storeTwoHuman.ProductKeys ∧
    storeTwoHuman.reviews.filter (fun r => r.ProductID = exampleProduct.ID)
      = [exampleReview 1 1 "good", exampleReview 2 1 "bad"] ∧
    (postReview storeTwoHuman (Env.answering "") (Env.answering "mixed") (Env.answering "good,bad")
        exampleProduct.ExternalID (.ok exampleInput)).calls
      = [summaryPrompt [exampleReview 1 1 "good", exampleReview 2 1 "bad"],
         keywordsPrompt [exampleReview 1 1 "good", exampleReview 2 1 "bad"]] :=
  ⟨by decide, by decide,
    (C4_third_review_fires_summary_and_keywords storeTwoHuman (Env.answering "")
      (Env.answering "mixed") (Env.answering "good,bad") exampleInput exampleProduct
      (exampleReview 1 1 "good") (exampleReview 2 1 "bad") "mixed" "good,bad"
      (by decide) (by decide) (by decide) rfl rfl (by decide) (by decide) (by decide) rfl rfl).1⟩

/-- C4 (counterexample). On a product with exactly two human reviews and no synthesized one, the
handler of the third submission does not call the completion service exactly once and does not
leave the keywords unchanged: it sends two prompts and overwrites the keywords. -/
theorem C4_counterexample_keywords_fire_after_summary :
    storeTwoHuman.reviews.filter (fun r => r.ProductID = exampleProduct.ID)
      = [exampleReview 1 1 "good", exampleReview 2 1 "bad"] ∧
    (postReview storeTwoHuman (Env.answering "") (Env.answering "mixed") (Env.answering "good,bad")
        "x" (.ok exampleInput)).response = .json 201 "Review created" ∧
    (postReview storeTwoHuman (Env.answering "") (Env.answering "mixed") (Env.answering "good,bad")
        "x" (.ok exampleInput)).calls.length = 2 ∧
    (postReview storeTwoHuman (Env.answering "") (Env.answering "mixed") (Env.answering "good,bad")
        "x" (.ok exampleInput)).store.products.map Product.Keywords = ["good,bad"] ∧
    storeTwoHuman.products.map Product.Keywords = ["old"] ∧
    ¬ ((postReview storeTwoHuman (Env.answering "") (Env.answering "mixed")
          (Env.answering "good,bad") "x" (.ok exampleInput)).calls
        = [summaryPrompt (storeTwoHuman.scanReviews "x")] ∧
      (postReview storeTwoHuman (Env.answering "") (Env.answering "mixed")
          (Env.answering "good,bad") "x" (.ok exampleInput)).store.products
        = storeTwoHuman.products) := by
  decide

/-! ## The trigger rule -/

/-- With the load answered, `CreateSmartReview` calls the completion service exactly on the
period-3 boundary of the number of loaded rows. -/
theorem CreateSmartReview_fires_iff (s : Store) (env : Env) (externalID : String)
    (hf : env.getReviewsErr = none) :
    (s.CreateSmartReview env externalID).calls ≠ [] ↔
      ((s.scanReviews externalID).length + 1) % 3 = 0 := by
  constructor
  · intro h
    obtain ⟨first, rest, hload, htrig, _⟩ := CreateSmartReview_calls s env externalID h
    rw [← (GetReviews_ok s env _ _ hload).1]
    exact htrig
  · intro htrig
    unfold Store.CreateSmartReview
    rw [GetReviews_of_noFault s env externalID hf]
    cases hl : s.scanReviews externalID with
    | nil => rw [hl] at htrig; simp at htrig
    | cons first rest =>
      rw [hl] at htrig
      simp only [htrig, ne_eq, not_true_eq_false, if_false]
      split
      · simp
      · split <;> simp

/-- With the load answered, `CreateReviewsKeywords` calls the completion service exactly on the
period-2 boundary of the number of loaded rows. -/
theorem CreateReviewsKeywords_fires_iff (s : Store) (env : Env) (externalID : String)
    (hf : env.getReviewsErr = none) :
    (s.CreateReviewsKeywords env externalID).calls ≠ [] ↔
      ((s.scanReviews externalID).length + 1) % 2 = 0 := by
  constructor
  · intro h
    obtain ⟨first, rest, hload, htrig, _⟩ := CreateReviewsKeywords_calls s env externalID h
    rw [← (GetReviews_ok s env _ _ hload).1]
    exact htrig
  · intro htrig
    unfold Store.CreateReviewsKeywords
    rw [GetReviews_of_noFault s env externalID hf]
    cases hl : s.scanReviews externalID with
    | nil => rw [hl] at htrig; simp at htrig
    | cons first rest =>
      rw [hl] at htrig
      simp only [htrig, ne_eq, not_true_eq_false, if_false]
      split
      · simp
      · split
        · simp
        · split <;> simp

/-- Off the boundary `CreateSmartReview` returns nil and leaves the database alone. -/
theorem CreateSmartReview_noop (s : Store) (env : Env) (externalID : String)
    (hf : env.getReviewsErr = none)
    (htrig : ((s.scanReviews externalID).length + 1) % 3 ≠ 0) :
    s.CreateSmartReview env externalID = { store := s, calls := [], result := .ok } := by
  unfold Store.CreateSmartReview
  rw [GetReviews_of_noFault s env externalID hf]
  cases hl : s.scanReviews externalID with
  | nil => rfl
  | cons first rest =>
    rw [hl] at htrig
    simp only [htrig, ne_eq, not_false_eq_true, if_true]

/-- Off the boundary `CreateReviewsKeywords` returns nil and leaves the database alone. -/
theorem CreateReviewsKeywords_noop (s : Store) (env : Env) (externalID : String)
    (hf : env.getReviewsErr = none)
    (htrig : ((s.scanReviews externalID).length + 1) % 2 ≠ 0) :
    s.CreateReviewsKeywords env externalID = { store := s, calls := [], result := .ok } := by
  unfold Store.CreateReviewsKeywords
  rw [GetReviews_of_noFault s env externalID hf]
  cases hl : s.scanReviews externalID with
  | nil => rfl
  | cons first rest =>
    rw [hl] at htrig
    simp only [htrig, ne_eq, not_false_eq_true, if_true]

/-- For a product with at least one stored review the loaded rows are as many as its stored
reviews, synthesized ones included. -/
theorem scanReviews_length (s : Store) (hk : s.ProductKeys) (p : Product) (hp : p ∈ s.products)
    (hne : s.reviews.filter (fun r => r.ProductID = p.ID) ≠ []) :
    (s.scanReviews p.ExternalID).length
      = (s.reviews.filter (fun r => r.ProductID = p.ID)).length := by
  rw [scanReviews_of_reviews s hk p hp hne]
  generalize s.reviews.filter (fun r => r.ProductID = p.ID) = l
  unfold humanReviews
  induction l with
  | nil => rfl
  | cons x xs ih =>
    cases hx : x.IAGenerated
    · simp only [List.filter_cons, hx, Bool.false_eq_true, if_false, Bool.not_false, if_true,
        List.length_append, List.length_cons] at ih ⊢
      omega
    · simp only [List.filter_cons, hx, if_true, Bool.not_true, Bool.false_eq_true, if_false,
        List.length_append, List.length_cons] at ih ⊢
      omega

/-- For a product without stored reviews one row is loaded, and with the load answered and a
completion service that answers, `CreateSmartReview` does nothing while `CreateReviewsKeywords`
sends the directive with one empty entry and stores the answer as the keywords. -/
theorem no_reviews_fires_keywords (s : Store) (env : Env) (p : Product) (k : String)
    (hpk : s.ProductKeys) (hp : p ∈ s.products)
    (hnil : s.reviews.filter (fun r => r.ProductID = p.ID) = []) (hf : env.NoFault)
    (hgen : env.Generate (keywordsDirective ++ "\n") = .ok k) :
    s.scanReviews p.ExternalID = [Review.zero] ∧
    s.CreateSmartReview env p.ExternalID = { store := s, calls := [], result := .ok } ∧
    s.CreateReviewsKeywords env p.ExternalID =
      { store :=
          { s with
            products := s.products.map
              (fun q => if q.ExternalID = p.ExternalID then { q with Keywords := k } else q) }
        calls := [keywordsDirective ++ "\n"]
        result := .ok } := by
  obtain ⟨hfp, hfl, _, _, hfs, _, _⟩ := hf
  have hscan := scanReviews_of_no_reviews s hpk p hp hnil
  have hprompt : keywordsPrompt [Review.zero] = keywordsDirective ++ "\n" := by
    simp [keywordsPrompt, keywordsContent, Review.zero]
  refine ⟨hscan, ?_, ?_⟩
  · exact CreateSmartReview_noop s env _ hfl (by rw [hscan]; decide)
  · have hload : s.GetReviewsByProductExternalID env p.ExternalID = .ok [Review.zero] := by
      rw [GetReviews_of_noFault s env _ hfl, hscan]
    rw [← hprompt] at hgen ⊢
    rw [CreateReviewsKeywords_fired s env p.ExternalID Review.zero [] k hload (by simp) hgen,
      GetProductByExternalID_of_mem s env hpk p hp hfp]
    simp only
    rcases saveProduct_of_mem s env hpk p { p with Keywords := k } hp rfl with ⟨msg, h⟩ | h
    · unfold Store.saveProduct at h
      rw [hfs] at h
      simp only at h
      split at h
      · simp at h
      · split at h <;> simp at h
    · rw [h, keywords_products_map s hpk p hp k]

/-! ## Divergences of the code from the trigger rule -/

/-- C1 (divergence). The trigger rule fails at `n = 0`: the product of `storeNoReviews` has no
stored review, `(0 + 1) mod 2` is not 0, and yet `CreateReviewsKeywords` calls the completion
service and changes the database, because the left join hands it one row of NULLs and it
evaluates `(1 + 1) mod 2`. -/
theorem C1_keywords_fire_with_zero_reviews :
    (storeNoReviews.reviews.filter (fun r => r.ProductID = exampleProduct.ID)).length = 0 ∧
    (0 + 1) % 2 ≠ 0 ∧
    (storeNoReviews.scanReviews "x").length = 1 ∧
    (storeNoReviews.CreateReviewsKeywords (Env.answering "k1,k2") "x").calls ≠ [] ∧
    (storeNoReviews.CreateReviewsKeywords (Env.answering "k1,k2") "x").result = .ok ∧
    (storeNoReviews.CreateReviewsKeywords (Env.answering "k1,k2") "x").store ≠ storeNoReviews := by
  decide

/-- C5 (divergence). Scenario C on the code: for a product without reviews
`GetReviewsByProductExternalID` returns one zero-valued review, `CreateSmartReview` does not fire
but `CreateReviewsKeywords` does, with a prompt holding no review text, and stores the answer;
the first submission for an unseen external id therefore calls the completion service once and
leaves the new product with non-empty keywords. -/
theorem C5_first_submission_fires_keywords :
    storeNoReviews.reviews = [] ∧
    storeNoReviews.GetReviewsByProductExternalID (Env.answering "k1,k2") "x"
      = .ok [Review.zero] ∧
    (storeNoReviews.CreateSmartReview (Env.answering "k1,k2") "x").calls = [] ∧
    (storeNoReviews.CreateReviewsKeywords (Env.answering "k1,k2") "x").calls
      = [keywordsDirective ++ "\n"] ∧
    (storeNoReviews.CreateReviewsKeywords (Env.answering "k1,k2") "x").store.products.map
        Product.Keywords = ["k1,k2"] ∧
    (postReview storeEmpty (Env.answering "") (Env.answering "sum") (Env.answering "k1,k2") "x"
        (.ok exampleInput)).calls = [keywordsDirective ++ "\n"] ∧
    (postReview storeEmpty (Env.answering "") (Env.answering "sum") (Env.answering "k1,k2") "x"
        (.ok exampleInput)).store.products.map Product.Keywords = ["k1,k2"] ∧
    (postReview storeEmpty (Env.answering "") (Env.answering "sum") (Env.answering "k1,k2") "x"
        (.ok exampleInput)).store.reviews.map Review.IAGenerated = [false] := by
  exact ⟨rfl, rfl, rfl, rfl, rfl, rfl, rfl, rfl⟩

/-! ## Storage errors -/

theorem saveReview_fault (s : Store) (env : Env) (a : Review) (msg : String)
    (hf : env.saveReviewErr = some msg) : s.saveReview env a = .error (.other msg) := by
  simp [Store.saveReview, hf]

/-- The zero-valued review is never saved: its product id 0 is the id of no product. -/
theorem saveReview_zero (s : Store) (env : Env) (hpk : s.ProductKeys) :
    ∃ msg, s.saveReview env Review.zero = .error (.other msg) ∧
      (env.saveReviewErr = none → msg = foreignKeyViolation) := by
  cases hf : env.saveReviewErr with
  | some msg => exact ⟨msg, saveReview_fault s env _ msg hf, fun h => by simp at h⟩
  | none =>
    refine ⟨foreignKeyViolation, ?_, fun _ => rfl⟩
    have hz : s.hasProduct Review.zero.ProductID = false := hasProduct_zero s hpk
    unfold Store.saveReview
    rw [hf]
    simp only [Review.zero, if_true]
    exact insertReview_foreignKey s env.now _ hz

theorem firstAIReview_fault (s : Store) (env : Env) (productID : Nat) (msg : String)
    (hf : env.firstReviewErr = some msg) :
    s.firstAIReview env productID = .error (.other msg) := by
  simp [Store.firstAIReview, hf]

/-- An error result of `CreateSmartReview` comes with the database it started from. -/
theorem CreateSmartReview_error_store (s : Store) (env : Env) (externalID msg : String)
    (h : (s.CreateSmartReview env externalID).result = .error msg) :
    (s.CreateSmartReview env externalID).store = s := by
  cases hload : s.GetReviewsByProductExternalID env externalID with
  | error e => simp [Store.CreateSmartReview, hload]
  | ok l =>
    cases l with
    | nil => simp [Store.CreateSmartReview, hload]
    | cons first rest =>
      by_cases htrig : ((first :: rest).length + 1) % 3 = 0
      · cases hgen : env.Generate (summaryPrompt (first :: rest)) with
        | error e =>
          unfold Store.CreateSmartReview
          rw [hload]
          simp only [htrig, ne_eq, not_true_eq_false, if_false]
          rw [hgen]
        | ok text =>
          rw [CreateSmartReview_fired s env externalID first rest text hload htrig hgen] at h ⊢
          generalize s.saveReview env _ = res at h ⊢
          cases res with
          | error err => rfl
          | ok s' => simp at h
      · unfold Store.CreateSmartReview
        rw [hload]
        simp only [htrig, ne_eq, not_false_eq_true, if_true]

/-- C7. Storage errors propagate: a failing load of the reviews makes `CreateSmartReview` return
that error without touching the database or the completion service; once the trigger has fired
and the summary is generated, a lookup of the synthesized review that fails with an error other
than record-not-found, or a failing save, makes it return a non-nil error and persist nothing.
After a failing lookup the record handed to the save is the zero-valued review, which the
foreign key of `reviews.product_id` rejects, so the error returned is that rejection when the
save itself is answered. Whenever the result is an error the database is the one before. -/
theorem C7_storage_errors_propagate (s : Store) (env : Env) (externalID : String)
    (hpk : s.ProductKeys) :
    (∀ msg, env.getReviewsErr = some msg →
      s.CreateSmartReview env externalID =
        { store := s, calls := [], result := .error ("failed to get reviews: " ++ msg) }) ∧
    (∀ (first : Review) (rest : List Review) (text : String),
      s.GetReviewsByProductExternalID env externalID = .ok (first :: rest) →
      ((first :: rest).length + 1) % 3 = 0 →
      env.Generate (summaryPrompt (first :: rest)) = .ok text →
      (env.firstReviewErr ≠ none ∨ env.saveReviewErr ≠ none) →
        (∃ msg, (s.CreateSmartReview env externalID).result = .error msg) ∧
        (s.CreateSmartReview env externalID).store = s) ∧
    (∀ (first : Review) (rest : List Review) (text msg : String),
      s.GetReviewsByProductExternalID env externalID = .ok (first :: rest) →
      ((first :: rest).length + 1) % 3 = 0 →
      env.Generate (summaryPrompt (first :: rest)) = .ok text →
      env.firstReviewErr = some msg → env.saveReviewErr = none →
        (s.CreateSmartReview env externalID).result
          = .error ("failed to create review: " ++ foreignKeyViolation)) ∧
    (∀ msg, (s.CreateSmartReview env externalID).result = .error msg →
      (s.CreateSmartReview env externalID).store = s) := by
  refine ⟨fun msg hf => CreateSmartReview_load_error s env externalID msg hf, ?_, ?_,
    fun msg h => CreateSmartReview_error_store s env externalID msg h⟩
  · intro first rest text hload htrig hgen hfail
    have hres : ∃ msg, (s.CreateSmartReview env externalID).result = .error msg := by
      rw [CreateSmartReview_fired s env externalID first rest text hload htrig hgen]
      cases hlook : env.firstReviewErr with
      | some m =>
        rw [firstAIReview_fault s env _ m hlook]
        simp only [reduceCtorEq, if_false]
        obtain ⟨msg, hsv, _⟩ := saveReview_zero s env hpk
        rw [hsv]
        exact ⟨_, rfl⟩
      | none =>
        cases hsave : env.saveReviewErr with
        | none => rcases hfail with h | h <;> contradiction
        | some m =>
          rw [saveReview_fault s env _ m hsave]
          exact ⟨_, rfl⟩
    obtain ⟨msg, hmsg⟩ := hres
    exact ⟨⟨msg, hmsg⟩, CreateSmartReview_error_store s env externalID msg hmsg⟩
  · intro first rest text m hload htrig hgen hlook hsave
    rw [CreateSmartReview_fired s env externalID first rest text hload htrig hgen,
      firstAIReview_fault s env _ m hlook]
    simp only [reduceCtorEq, if_false]
    obtain ⟨msg, hsv, hmsg⟩ := saveReview_zero s env hpk
    rw [hsv, hmsg hsave]
    rfl

/-- A lookup that fails with a connection error on the third submission's trigger: the call
returns the rejection of the blank record and the database is untouched. -/
theorem C7_storage_errors_propagate_witness :
    storeTwoHuman.ProductKeys ∧
    (Env.lookupFailing "sum" "connection reset").firstReviewErr = some "connection reset" ∧
    (storeTwoHuman.CreateSmartReview (Env.lookupFailing "sum" "connection reset") "x").result
      = .error ("failed to create review: " ++ foreignKeyViolation) ∧
    (storeTwoHuman.CreateSmartReview (Env.lookupFailing "sum" "connection reset") "x").store
      = storeTwoHuman :=
  ⟨by decide, rfl,
    (C7_storage_errors_propagate storeTwoHuman (Env.lookupFailing "sum" "connection reset") "x"
      (by decide)).2.2.1 (exampleReview 1 1 "good") [exampleReview 2 1 "bad"] "sum"
      "connection reset" rfl (by decide) rfl rfl rfl,
    ((C7_storage_errors_propagate storeTwoHuman (Env.lookupFailing "sum" "connection reset") "x"
      (by decide)).2.1 (exampleReview 1 1 "good") [exampleReview 2 1 "bad"] "sum"
      rfl (by decide) rfl (Or.inl (by decide))).2⟩

end SmartReview
